import Mathlib

/-!
# Verification of the execution-framework contracts of `daal`

A shallow embedding of the Input / Parameter / Result contracts found in

* `algorithms/kernel/neural_networks/layers/lrn_layer/backward/lrn_layer_backward.cpp`
* `algorithms/kernel/neural_networks/layers/relu_layer/backward/relu_layer_backward_fpt.cpp`
* `algorithms/kernel/neural_networks/layers/spatial_pooling2d_layer/forward/spatial_pooling2d_layer_forward_fpt.cpp`
* `include/algorithms/boosting/logitboost_predict.h`
* `include/algorithms/k_nearest_neighbors/kdtree_knn_classification_training_batch.h`

Conventions of the embedding.

* A `services::SharedPtr<T>` is an `Option`: `none` is the null pointer.
* A tensor object carries the address it lives at; two shared pointers are the
  same reference exactly when they are equal (in particular their addresses agree).
* `new` takes the next free address from a counter that is threaded through the
  allocating functions.
* The shared error collection `_errors` is passed in and returned explicitly.
* A method that dereferences a null pointer ends with status `nullDereference`.
-/

namespace daal

/-! ## services -/

namespace services

/-- The error identifiers used by the embedded code (`services::ErrorID`); `other` stands
for every identifier the embedded code does not name itself. -/
inductive ErrorID where
  | ErrorNullInputNumericTable
  | ErrorNullResult
  | ErrorNullTensor
  | ErrorIncorrectNumberOfDimensionsInTensor
  | ErrorIncorrectSizeOfDimensionInTensor
  | other (code : Nat)
  deriving DecidableEq, Repr

/-- One entry of the error collection: a kind and a context (the argument name). -/
structure Error where
  id : ErrorID
  argumentName : Option String := none
  deriving DecidableEq, Repr

/-- The error collection: an ordered sequence of entries, extended at its end. -/
abbrev ErrorCollection := List Error

/-- The call `_errors->add(id)`. -/
def ErrorCollection.add (errors : ErrorCollection) (id : ErrorID) : ErrorCollection :=
  errors ++ [{ id := id }]

/-- The call `_errors->size()`. -/
def ErrorCollection.size (errors : ErrorCollection) : Nat :=
  errors.length

end services

/-! ## data_management -/

namespace data_management

open services

/-- The two floating-point types an algorithm is instantiated with (`DAAL_FPTYPE`). -/
inductive FPType where
  | float
  | double
  deriving DecidableEq, Repr

/-- The dynamic type of a tensor object, as far as `dynamic_cast` can tell. -/
inductive TensorKind where
  | homogen (fp : FPType)
  | mkl (fp : FPType)
  | other (tag : Nat)
  deriving DecidableEq, Repr

/-- A tensor object: the address it lives at, its dynamic type and its dimensions
(`getDimensions()`). -/
structure Tensor where
  addr : Nat
  kind : TensorKind
  dims : List Nat
  deriving DecidableEq, Repr

/-- The type `services::SharedPtr<data_management::Tensor>`. -/
abbrev TensorPtr := Option Tensor

/-- The result of one `checkTensor` call: its return value and the entries it added. -/
structure TensorCheck where
  ok : Bool
  appended : List Error
  deriving DecidableEq, Repr

/-- The type of `data_management::checkTensor(tensor, errors, description, dims)`, a helper
that is not under `src/`: it sees the tensor pointer, the collection, the argument name
and the optional reference dimensions; it returns a flag and adds entries. -/
abbrev CheckTensorFn := TensorPtr → ErrorCollection → String → Option (List Nat) → TensorCheck

/-- Modelled from the spec: `data_management::checkTensor` is not under `src/`. Following
the spec, a check "enforces required-ness and shape compatibility (dimension match against
a reference shape) without dereferencing absent data": a null tensor is rejected with
`ErrorNullTensor`, a tensor whose dimensions differ from the reference shape is rejected
with a dimension error, and every other tensor is accepted with nothing added. -/
def checkTensor : CheckTensorFn := fun tensor _errors description dims =>
  match tensor with
  | none => { ok := false, appended := [{ id := .ErrorNullTensor, argumentName := some description }] }
  | some t =>
    match dims with
    | none => { ok := true, appended := [] }
    | some d =>
      if t.dims.length ≠ d.length then
        { ok := false
          appended := [{ id := .ErrorIncorrectNumberOfDimensionsInTensor, argumentName := some description }] }
      else if t.dims ≠ d then
        { ok := false
          appended := [{ id := .ErrorIncorrectSizeOfDimensionInTensor, argumentName := some description }] }
      else { ok := true, appended := [] }

end data_management

/-! ## neural_networks::layers -/

namespace algorithms.neural_networks.layers

open services data_management

/-- The fields of `layers::Parameter` the embedded code reads, and the layer-specific
fields (declared in headers that are not under `src/`) as uninterpreted numbers. -/
structure Parameter where
  propagateGradient : Bool
  predictionStage : Bool
  layerFields : List Nat := []
  deriving DecidableEq, Repr

/-- Modelled from the spec: `layers::LayerData` (a `KeyValueDataCollection`) is not under
`src/`. Following the spec it is "an ordered mapping from small integer identifiers to
Tensor references"; the object carries the address it lives at. -/
structure LayerData where
  addr : Nat
  entries : List (Nat × TensorPtr)
  deriving DecidableEq, Repr

/-- Modelled from the spec: the lookup `(*layerData)[id]`, not under `src/`. An identifier
that is not in the mapping gives the null pointer. -/
def LayerData.lookup (ld : LayerData) (id : Nat) : TensorPtr :=
  match ld.entries.find? (fun e => e.1 == id) with
  | some e => e.2
  | none => none

/-- Modelled from the spec: the assignment `(*layerData)[id] = value`, not under `src/`.
The entry of an identifier already in the mapping is overwritten in place, a new
identifier is added at the end. -/
def LayerData.assign (ld : LayerData) (id : Nat) (value : TensorPtr) : LayerData :=
  if ld.entries.any (fun e => e.1 == id) then
    { ld with entries := ld.entries.map (fun e => if e.1 == id then (id, value) else e) }
  else
    { ld with entries := ld.entries ++ [(id, value)] }

/-- How a method ended: it returned to its caller, or it dereferenced a null pointer. -/
inductive Status where
  | returned
  | nullDereference
  deriving DecidableEq, Repr

/-! ### lrn::backward -/

namespace lrn.backward

/-- The identifiers `lrn::LayerDataId` of the data the forward layer hands to the backward
layer. -/
inductive LayerDataId where
  | auxData
  | auxSmBeta
  deriving DecidableEq, Repr

/-- The key of an identifier in the `LayerData` mapping (the enumerators are declared in a
header that is not under `src/`; they are distinct). -/
def LayerDataId.key : LayerDataId → Nat
  | .auxData => 0
  | .auxSmBeta => 1

/-- The input of the backward lrn layer: the two slots of `layers::backward::Input`,
`inputGradient` and `inputFromForward`. -/
structure Input where
  inputGradient : TensorPtr
  inputFromForward : Option LayerData
  deriving DecidableEq, Repr

/-- The result of the backward lrn layer: the slot `gradient` of `layers::backward::Result`. -/
structure Result where
  gradient : TensorPtr
  deriving DecidableEq, Repr

/-- The type of the base-class method `layers::backward::Input::check(par, method)`, which
is not under `src/`: it sees the input, the parameter, the method and the collection, and
the value is the list of entries it adds. -/
abbrev BaseCheckFn := Input → Parameter → Int → ErrorCollection → List Error

/-- The argument names `inputGradientStr()`, `auxDataStr()`, `auxSmBetaStr()`. -/
def inputGradientStr : String := "inputGradient"

/-- The argument name `auxDataStr()`. -/
def auxDataStr : String := "auxData"

/-- The argument name `auxSmBetaStr()`. -/
def auxSmBetaStr : String := "auxSmBeta"

/-- The validation steps of `Input::check`, in the order of the source, and the read of
the dimensions of the input gradient. -/
inductive Step where
  | baseCheck
  | checkInputGradient
  | checkAuxData
  | checkAuxSmBeta
  | getDimensions
  deriving DecidableEq, Repr

/-- One executed step: which one, whether it failed (the check that follows it in the
source returns), and the entries it added to the error collection. -/
structure Event where
  step : Step
  failed : Bool
  appended : List Error
  deriving DecidableEq, Repr

/-- What one call of `check` did: the error collection afterwards, the steps it executed
in order, and how it ended. -/
structure CheckRun where
  errors : ErrorCollection
  trace : List Event
  status : Status
  deriving DecidableEq, Repr

/-- The method `Input::get(LayerDataId id)`: the forward `LayerData` is dereferenced
without a null test, then looked up at `id`. -/
def Input.get (self : Input) (id : LayerDataId) : Except Status TensorPtr :=
  match self.inputFromForward with
  | none => .error .nullDereference
  | some layerData => .ok (layerData.lookup id.key)

/-- The method `Input::set(LayerDataId id, value)`: the forward `LayerData` is dereferenced
without a null test, then assigned at `id`. -/
def Input.set (self : Input) (id : LayerDataId) (value : TensorPtr) : Except Status Input :=
  match self.inputFromForward with
  | none => .error .nullDereference
  | some layerData => .ok { self with inputFromForward := some (layerData.assign id.key value) }

/-- The method `Input::check(par, method)` of the backward lrn layer, line by line. The
base-class check and `checkTensor` are the parameters `baseCheck` and `ct`. -/
def Input.check (baseCheck : BaseCheckFn) (ct : CheckTensorFn) (self : Input)
    (par : Parameter) (method : Int) (errors : ErrorCollection) : CheckRun :=
  -- if (!param->propagateGradient) { return; }
  if !par.propagateGradient then { errors := errors, trace := [], status := .returned } else
  -- layers::backward::Input::check(par, method);
  let a0 := baseCheck self par method errors
  let e1 := errors ++ a0
  let t1 := [{ step := .baseCheck, failed := e1.size != 0, appended := a0 : Event }]
  -- if(this->_errors->size() != 0) {return;}
  if e1.size != 0 then { errors := e1, trace := t1, status := .returned } else
  -- inputGradientTensor = get(layers::backward::inputGradient);
  let inputGradientTensor := self.inputGradient
  -- if (!checkTensor(inputGradientTensor.get(), _errors, inputGradientStr())) { return; }
  let c1 := ct inputGradientTensor e1 inputGradientStr none
  let e2 := e1 ++ c1.appended
  let t2 := t1 ++ [{ step := .checkInputGradient, failed := !c1.ok, appended := c1.appended }]
  if !c1.ok then { errors := e2, trace := t2, status := .returned } else
  -- dataDims = inputGradientTensor->getDimensions();
  match inputGradientTensor with
  | none => { errors := e2, trace := t2, status := .nullDereference }
  | some tensor =>
    let dataDims := tensor.dims
    let t3 := t2 ++ [{ step := .getDimensions, failed := false, appended := [] }]
    -- if (!checkTensor(get(auxData).get(), _errors, auxDataStr(), &dataDims)) { return; }
    match self.get .auxData with
    | .error s => { errors := e2, trace := t3, status := s }
    | .ok aux =>
      let c2 := ct aux e2 auxDataStr (some dataDims)
      let e3 := e2 ++ c2.appended
      let t4 := t3 ++ [{ step := .checkAuxData, failed := !c2.ok, appended := c2.appended }]
      if !c2.ok then { errors := e3, trace := t4, status := .returned } else
      -- if (!checkTensor(get(auxSmBeta).get(), _errors, auxSmBetaStr(), &dataDims)) { return; }
      match self.get .auxSmBeta with
      | .error s => { errors := e3, trace := t4, status := s }
      | .ok smBeta =>
        let c3 := ct smBeta e3 auxSmBetaStr (some dataDims)
        let e4 := e3 ++ c3.appended
        let t5 := t4 ++ [{ step := .checkAuxSmBeta, failed := !c3.ok, appended := c3.appended }]
        { errors := e4, trace := t5, status := .returned }

/-- The method `Result::check(input, par, method)` of the backward lrn layer: after the
test of `propagateGradient` the body is empty. -/
def Result.check (_self : Result) (_input : Input) (par : Parameter) (_method : Int)
    (errors : ErrorCollection) : ErrorCollection :=
  -- if (!param->propagateGradient) { return; }
  if !par.propagateGradient then errors else
  errors

/-- A sample input gradient of dimensions 2 x 3, used to evaluate the checks. -/
def sampleGradient : Tensor := { addr := 1, kind := .homogen .float, dims := [2, 3] }

/-- A sample forward `LayerData` that holds a fitting `auxData` and no `auxSmBeta`
identifier at all. -/
def sampleLayerDataNoSmBeta : LayerData :=
  { addr := 10
    entries := [(LayerDataId.auxData.key, some { addr := 2, kind := .homogen .float, dims := [2, 3] })] }

/-- A sample parameter with gradient propagation on. -/
def sampleParameter : Parameter := { propagateGradient := true, predictionStage := false }

/-- A sample base-class check that accepts every input. -/
def sampleBaseCheck : BaseCheckFn := fun _ _ _ _ => []

end lrn.backward

/-! ### relu::backward -/

namespace relu.backward

/-- The input of the backward relu layer, given by what its getters return:
`get(layers::backward::inputGradient)` and `get(relu::auxData)`. The getters themselves
are not under `src/`. -/
structure Input where
  inputGradient : TensorPtr
  auxData : TensorPtr
  deriving DecidableEq, Repr

/-- The result of the backward relu layer: the slots of `layers::backward::Result`. -/
structure Result where
  gradient : TensorPtr
  weightDerivatives : TensorPtr
  biasDerivatives : TensorPtr
  deriving DecidableEq, Repr

/-- What one call of `Result::allocate` leaves behind: the result object, the error
collection and the next free address. -/
structure AllocRun where
  result : Result
  errors : ErrorCollection
  nextAddr : Nat
  deriving DecidableEq, Repr

/-- The cast `dynamic_cast<HomogenTensor<algorithmFPType>*>(inTensor.get())`: non-null
exactly for a tensor whose dynamic type is `HomogenTensor<algorithmFPType>`. -/
def dynamicCastHomogen (fp : FPType) (inTensor : TensorPtr) : TensorPtr :=
  match inTensor with
  | none => none
  | some t => if t.kind = .homogen fp then some t else none

/-- The method `Result::allocate<algorithmFPType>(input, parameter, method)` of the
backward relu layer, line by line. -/
def Result.allocate (fp : FPType) (self : Result) (input : Input) (parameter : Parameter)
    (_method : Int) (errors : ErrorCollection) (nextAddr : Nat) : AllocRun :=
  -- if (!param->propagateGradient) { return; }
  if !parameter.propagateGradient then
    { result := self, errors := errors, nextAddr := nextAddr }
  else
    -- valueTable = in->get(auxData);
    match input.auxData with
    | none =>
      -- if(valueTable == 0) { this->_errors->add(services::ErrorNullInputNumericTable); return; }
      { result := self, errors := errors.add .ErrorNullInputNumericTable, nextAddr := nextAddr }
    | some valueTable =>
      -- if (!get(layers::backward::gradient))
      if self.gradient.isNone then
        let inTensor := input.inputGradient
        let inHomo := dynamicCastHomogen fp inTensor
        if inHomo.isSome then
          -- set(layers::backward::gradient, inTensor);
          { result := { self with gradient := inTensor }, errors := errors, nextAddr := nextAddr }
        else
          -- set(layers::backward::gradient, new MklTensor<algorithmFPType>(valueTable->getDimensions()));
          { result := { self with
              gradient := some { addr := nextAddr, kind := .mkl fp, dims := valueTable.dims } }
            errors := errors
            nextAddr := nextAddr + 1 }
      else
        { result := self, errors := errors, nextAddr := nextAddr }

/-- A sample input whose gradient is a `HomogenTensor<float>`. -/
def sampleInputHomogen : Input :=
  { inputGradient := some { addr := 1, kind := .homogen .float, dims := [2, 3] }
    auxData := some { addr := 2, kind := .homogen .float, dims := [2, 3] } }

/-- A sample input whose gradient is a tensor of another type, of dimensions 7, while
`auxData` has the dimensions 2 x 3. -/
def sampleInputForeign : Input :=
  { inputGradient := some { addr := 1, kind := .other 0, dims := [7] }
    auxData := some { addr := 2, kind := .homogen .float, dims := [2, 3] } }

/-- A sample result with no field set. -/
def sampleResultEmpty : Result :=
  { gradient := none, weightDerivatives := none, biasDerivatives := none }

/-- A sample parameter with gradient propagation on. -/
def sampleParameter : Parameter := { propagateGradient := true, predictionStage := false }

end relu.backward

/-! ### spatial_pooling2d::forward -/

namespace spatial_pooling2d.forward

/-- The input of the forward 2D spatial pooling layer: the slot `layers::forward::data`. -/
structure Input where
  data : TensorPtr
  deriving DecidableEq, Repr

/-- The result of the forward 2D spatial pooling layer: the slots `layers::forward::value`
and `layers::forward::resultForBackward`. -/
structure Result where
  value : TensorPtr
  resultForBackward : Option LayerData
  deriving DecidableEq, Repr

/-- The type of the method `getValueSize(inputSize, parameter, method)`, which is not under
`src/`: from the dimensions of the input data, the parameter and the method to the
dimensions of the value tensor. -/
abbrev GetValueSizeFn := List Nat → Parameter → Int → List Nat

/-- What one call of `Result::allocate` leaves behind: the result object, the error
collection, the next free address, and how the call ended. -/
structure AllocRun where
  result : Result
  errors : ErrorCollection
  nextAddr : Nat
  status : Status
  deriving DecidableEq, Repr

/-- The method `Result::allocate<algorithmFPType>(input, parameter, method)` of the forward
2D spatial pooling layer, line by line. The data tensor is dereferenced without a null
test; the error collection is not touched. -/
def Result.allocate (fp : FPType) (getValueSize : GetValueSizeFn) (self : Result)
    (input : Input) (parameter : Parameter) (method : Int) (errors : ErrorCollection)
    (nextAddr : Nat) : AllocRun :=
  -- valueDims = getValueSize(in->get(layers::forward::data)->getDimensions(), algParameter, method);
  match input.data with
  | none => { result := self, errors := errors, nextAddr := nextAddr, status := .nullDereference }
  | some data =>
    let valueDims := getValueSize data.dims parameter method
    -- if (!get(layers::forward::value)) set(value, new HomogenTensor<algorithmFPType>(valueDims, doAllocate))
    let r1 : Result × Nat :=
      if self.value.isNone then
        ({ self with value := some { addr := nextAddr, kind := .homogen fp, dims := valueDims } },
          nextAddr + 1)
      else (self, nextAddr)
    -- if(!algParameter->predictionStage)
    if !parameter.predictionStage then
      -- if (!get(layers::forward::resultForBackward)) set(resultForBackward, new LayerData())
      if r1.1.resultForBackward.isNone then
        { result := { r1.1 with resultForBackward := some { addr := r1.2, entries := [] } }
          errors := errors
          nextAddr := r1.2 + 1
          status := .returned }
      else { result := r1.1, errors := errors, nextAddr := r1.2, status := .returned }
    else { result := r1.1, errors := errors, nextAddr := r1.2, status := .returned }

/-- A sample `getValueSize` that halves every dimension of the input. -/
def sampleGetValueSize : GetValueSizeFn := fun inputSize _ _ => inputSize.map (fun d => d / 2)

/-- A sample input whose data tensor has the dimensions 4 x 4. -/
def sampleInput : Input := { data := some { addr := 1, kind := .homogen .float, dims := [4, 4] } }

/-- A sample result whose value tensor is set and has the single dimension 1. -/
def sampleResultStale : Result :=
  { value := some { addr := 3, kind := .homogen .float, dims := [1] }, resultForBackward := none }

/-- A sample parameter of the training stage. -/
def sampleParameter : Parameter := { propagateGradient := false, predictionStage := false }

end spatial_pooling2d.forward

end algorithms.neural_networks.layers

/-! ## logitboost::prediction -/

namespace algorithms.logitboost.prediction

/-- A shared pointer to a numeric table or to a model: the address of the object, which
the embedded code never looks into. -/
abbrev DataPtr := Option Nat

/-- The parameter of the LogitBoost prediction algorithm: the number of classes, and the
other fields (declared in a header that is not under `src/`) as uninterpreted numbers. -/
structure Parameter where
  nClasses : Nat
  otherFields : List Nat
  deriving DecidableEq, Repr

/-- The default constructor of `Parameter` (not under `src/`). -/
def Parameter.default : Parameter := { nClasses := 2, otherFields := [] }

/-- The identifiers of `classifier::prediction::Input`. -/
inductive InputId where
  | data
  | model
  deriving DecidableEq, Repr

/-- The input `classifier::prediction::Input`: one shared pointer per identifier. -/
structure Input where
  data : DataPtr
  model : DataPtr
  deriving DecidableEq, Repr

/-- The getter `input.get(id)`. -/
def Input.get (self : Input) : InputId → DataPtr
  | .data => self.data
  | .model => self.model

/-- The setter `input.set(id, value)`. -/
def Input.set (self : Input) (id : InputId) (value : DataPtr) : Input :=
  match id with
  | .data => { self with data := value }
  | .model => { self with model := value }

/-- A `Batch` object. The raw pointers `inputBase`, `_in` and `_par` point at the member
`input` or `parameter` of some `Batch` object and hold the address of that object; `_ac`
holds the address of the container. -/
structure Batch where
  input : Input
  parameter : Parameter
  inputBase : Option Nat
  _in : Option Nat
  _ac : Option Nat
  _par : Option Nat
  deriving DecidableEq, Repr

/-- The free store: the `Batch` objects, each at the address that is its position, and
the number of containers allocated so far. -/
structure World where
  batches : List Batch
  containers : Nat
  deriving DecidableEq, Repr

/-- The member function `initialize()` applied to the object at address `this`. -/
def Batch.initializeBatch (self : Batch) (this : Nat) (containers : Nat) : Batch × Nat :=
  -- inputBase = &input; _in = &input; _ac = new Container(&_env); _par = &parameter;
  ({ self with inputBase := some this, _in := some this, _ac := some containers, _par := some this },
    containers + 1)

/-- A `Batch` object whose members are default constructed and whose base-class pointers
are null, before the body of a constructor runs. -/
def Batch.blank : Batch :=
  { input := { data := none, model := none }, parameter := Parameter.default,
    inputBase := none, _in := none, _ac := none, _par := none }

/-- The constructor `Batch(size_t nClasses)`, building the object at address `this`. -/
def Batch.construct (nClasses : Nat) (this : Nat) (containers : Nat) : Batch × Nat :=
  -- initialize(); parameter.nClasses = nClasses;
  let b := Batch.blank.initializeBatch this containers
  ({ b.1 with parameter := { b.1.parameter with nClasses := nClasses } }, b.2)

/-- The copy constructor `Batch(const Batch &other)`, building the object at address
`this`. -/
def Batch.copyConstruct (other : Batch) (this : Nat) (containers : Nat) : Batch × Nat :=
  -- initialize();
  let b := Batch.blank.initializeBatch this containers
  -- parameter = other.parameter;
  let b1 : Batch := { b.1 with parameter := other.parameter }
  -- this->input.set(classifier::prediction::data,  other.input.get(classifier::prediction::data));
  let b2 : Batch := { b1 with input := b1.input.set .data (other.input.get .data) }
  -- this->input.set(classifier::prediction::model, other.input.get(classifier::prediction::model));
  let b3 : Batch := { b2 with input := b2.input.set .model (other.input.get .model) }
  (b3, b.2)

/-- The methods `cloneImpl()` and `clone()`: `new Batch(*this)`. The new object is placed
at the next free address, which is returned with the new store. -/
def Batch.clone (self : Batch) (w : World) : World × Nat :=
  let this := w.batches.length
  let c := Batch.copyConstruct self this w.containers
  ({ batches := w.batches ++ [c.1], containers := c.2 }, this)

/-- The assignment `p->parameter = value` through a pointer `p` to a `Batch` object. -/
def World.setParameter (w : World) (p : Nat) (value : Parameter) : World :=
  match w.batches[p]? with
  | none => w
  | some b => { w with batches := w.batches.set p { b with parameter := value } }

/-- The call `p->input.set(id, value)` through a pointer `p` to a `Batch` object. -/
def World.setInput (w : World) (p : Nat) (id : InputId) (value : DataPtr) : World :=
  match w.batches[p]? with
  | none => w
  | some b => { w with batches := w.batches.set p { b with input := b.input.set id value } }

/-- A sample `Batch` for three classes whose input holds a data table and a model. -/
def sampleBatch : Batch :=
  { (Batch.construct 3 0 0).1 with input := { data := some 100, model := some 200 } }

/-- A sample store that holds the sample `Batch` at address 0. -/
def sampleWorld : World := { batches := [sampleBatch], containers := 1 }

end algorithms.logitboost.prediction

/-! ## kdtree_knn_classification::training -/

namespace algorithms.kdtree_knn_classification.training

open services

/-- A shared pointer to a numeric table or to a model: the address of the object. -/
abbrev DataPtr := Option Nat

/-- The parameter of the KD-tree based kNN algorithm: the fields (declared in a header
that is not under `src/`) as uninterpreted numbers. -/
structure Parameter where
  nClasses : Nat
  otherFields : List Nat
  deriving DecidableEq, Repr

/-- The default constructor of `Parameter` (not under `src/`). -/
def Parameter.default : Parameter := { nClasses := 2, otherFields := [] }

/-- The input `classifier::training::Input`, a member of the base class. -/
structure Input where
  data : DataPtr
  labels : DataPtr
  deriving DecidableEq, Repr

/-- A `Result` object: the slot `classifier::training::model`. -/
structure Result where
  model : DataPtr
  deriving DecidableEq, Repr

/-- The constructor `Result()`: an empty result. -/
def Result.empty : Result := { model := none }

/-- A `Batch` object. `_par` holds the address of the `Batch` object whose member
`parameter` it points at, `_result` and `_res` hold the address of a `Result` object,
`_ac` the address of the container; `_errors` is the error collection of the algorithm. -/
structure Batch where
  input : Input
  parameter : Parameter
  _ac : Option Nat
  _par : Option Nat
  _result : Option Nat
  _res : Option Nat
  _errors : ErrorCollection
  deriving DecidableEq, Repr

/-- The free store: the `Batch` objects and the `Result` objects, each at the address
that is its position, and the number of containers allocated so far. -/
structure World where
  batches : List Batch
  results : List Result
  containers : Nat
  deriving DecidableEq, Repr

/-- What a member function leaves behind: the object it ran on, the `Result` objects and
the number of containers. -/
structure Effect where
  self : Batch
  results : List Result
  containers : Nat
  deriving DecidableEq, Repr

/-- The type of `Result::allocate<algorithmFPType>(input, parameter, method)`, which is
not under `src/`: the content of the `Result` object afterwards. -/
abbrev ResultAllocateFn := Result → Input → Parameter → Int → Result

/-- The member function `initialize()` applied to the object at address `this`. -/
def Batch.initializeBatch (self : Batch) (this : Nat) (results : List Result)
    (containers : Nat) : Effect :=
  -- _ac = new Container(&_env); _par = &parameter; _result = SharedPtr<Result>(new Result());
  { self := { self with _ac := some containers, _par := some this, _result := some results.length }
    results := results ++ [Result.empty]
    containers := containers + 1 }

/-- Modelled from the spec: the constructors of the base class `classifier::training::Batch`
are not under `src/`. The default constructor leaves an empty input, null raw pointers
and an empty error collection. -/
def Batch.baseDefault : Batch :=
  { input := { data := none, labels := none }, parameter := Parameter.default,
    _ac := none, _par := none, _result := none, _res := none, _errors := [] }

/-- Modelled from the spec: the copy constructor of the base class
`classifier::training::Batch` is not under `src/`. Following the spec, a clone "shares
Input data references (no data copy)"; the raw pointers are null and the error collection
is empty. -/
def Batch.baseCopy (other : Batch) : Batch :=
  { Batch.baseDefault with input := other.input }

/-- The default constructor `Batch()`, building the object at address `this`. -/
def Batch.construct (this : Nat) (results : List Result) (containers : Nat) : Effect :=
  -- initialize();
  Batch.baseDefault.initializeBatch this results containers

/-- The copy constructor `Batch(const Batch &other)`, building the object at address
`this`. -/
def Batch.copyConstruct (other : Batch) (this : Nat) (results : List Result)
    (containers : Nat) : Effect :=
  -- : classifier::training::Batch(other), parameter(other.parameter) { initialize(); }
  let b : Batch := { Batch.baseCopy other with parameter := other.parameter }
  b.initializeBatch this results containers

/-- The method `setResult(result)`; `DAAL_CHECK(cond, error)` adds `error` to `_errors`
and returns when `cond` is false. -/
def Batch.setResult (self : Batch) (result : Option Nat) : Batch :=
  match result with
  | none =>
    -- DAAL_CHECK(result, ErrorNullResult)
    { self with _errors := self._errors.add .ErrorNullResult }
  | some r =>
    -- _result = result; _res = _result.get();
    { self with _result := some r, _res := some r }

/-- The method `getResult()`. -/
def Batch.getResult (self : Batch) : Option Nat :=
  self._result

/-- The method `resetResult()`. -/
def Batch.resetResult (self : Batch) (results : List Result) : Batch × List Result :=
  -- _result = SharedPtr<Result>(new Result()); _res = NULL;
  ({ self with _result := some results.length, _res := none }, results ++ [Result.empty])

/-- The method `allocateResult()`; the call of `allocate` through a null `_result`
dereferences a null pointer, in which case nothing is returned. -/
def Batch.allocateResult (allocate : ResultAllocateFn) (method : Int) (self : Batch)
    (results : List Result) : Option (Batch × List Result) :=
  -- res = staticPointerCast<Result>(_result);
  match self._result with
  | none => none
  | some res =>
    match results[res]? with
    | none => none
    | some r =>
      -- res->allocate<algorithmFPType>(&input, &parameter, (int)method); _res = _result.get();
      some ({ self with _res := self._result },
        results.set res (allocate r self.input self.parameter method))

/-- The methods `cloneImpl()` and `clone()`: `new Batch(*this)`. The new object is placed
at the next free address, which is returned with the new store. -/
def Batch.clone (self : Batch) (w : World) : World × Nat :=
  let this := w.batches.length
  let e := Batch.copyConstruct self this w.results w.containers
  ({ batches := w.batches ++ [e.self], results := e.results, containers := e.containers }, this)

/-- The assignment `p->parameter = value` through a pointer `p` to a `Batch` object. -/
def World.setParameter (w : World) (p : Nat) (value : Parameter) : World :=
  match w.batches[p]? with
  | none => w
  | some b => { w with batches := w.batches.set p { b with parameter := value } }

/-- A write of `value` into the `Result` object at address `r`. -/
def World.fillResult (w : World) (r : Nat) (value : Result) : World :=
  { w with results := w.results.set r value }

/-- A sample `Batch`: default constructed at address 0, then given the user-allocated
`Result` at address 1 with `setResult`. -/
def sampleBatch : Batch := (Batch.construct 0 [] 0).self.setResult (some 1)

/-- A sample store: the sample `Batch` at address 0, the `Result` of its constructor at
address 0 and the registered, filled `Result` at address 1. -/
def sampleWorld : World :=
  { batches := [sampleBatch], results := [Result.empty, { model := some 7 }], containers := 1 }

/-- The operations on the result of a `Batch` object: `setResult(result)` with a null or
non-null argument, `resetResult()` and `allocateResult()`. -/
inductive Op where
  | setResult (result : Option Nat)
  | resetResult
  | allocateResult
  deriving DecidableEq, Repr

/-- A `Batch` object together with the `Result` objects of the store. -/
structure State where
  self : Batch
  results : List Result
  deriving DecidableEq, Repr

/-- One operation on a state; nothing is returned when `allocateResult()` dereferences a
null pointer. -/
def State.step (allocate : ResultAllocateFn) (method : Int) (s : State) : Op → Option State
  | .setResult result => some { s with self := s.self.setResult result }
  | .resetResult =>
    some { self := (s.self.resetResult s.results).1, results := (s.self.resetResult s.results).2 }
  | .allocateResult =>
    match s.self.allocateResult allocate method s.results with
    | none => none
    | some p => some { self := p.1, results := p.2 }

/-- A sequence of operations, one after the other. -/
def State.run (allocate : ResultAllocateFn) (method : Int) : State → List Op → Option State
  | s, [] => some s
  | s, op :: ops =>
    match s.step allocate method op with
    | none => none
    | some s1 => s1.run allocate method ops

/-- Every non-null argument of `setResult` in a sequence of operations points at a `Result`
object that exists when the call is made, given the number `size` of `Result` objects
before the sequence: a shared pointer is null or points at a live object, and only
`resetResult()` creates a `Result`. -/
def opsValid (size : Nat) : List Op → Bool
  | [] => true
  | .setResult (some r) :: ops => decide (r < size) && opsValid size ops
  | .setResult none :: ops => opsValid size ops
  | .resetResult :: ops => opsValid (size + 1) ops
  | .allocateResult :: ops => opsValid size ops

/-- The result-pointer invariant: the held result is non-null and points at an existing
`Result`, and `_res` is null or points at that same `Result`. -/
def State.Inv (s : State) : Prop :=
  ∃ r, s.self._result = some r ∧ r < s.results.length ∧ (s.self._res = none ∨ s.self._res = some r)

/-- A sample `Result::allocate` that stores a model. -/
def sampleAllocate : ResultAllocateFn := fun r _ _ _ => { r with model := some 9 }

/-- A sample sequence of operations. -/
def sampleOps : List Op :=
  [.setResult none, .allocateResult, .setResult (some 0), .resetResult, .allocateResult,
    .setResult (some 2), .resetResult]

end algorithms.kdtree_knn_classification.training

end daal

/-! # Theorems -/

namespace daal

/-- An address at which the store holds an object lies inside the store. -/
theorem store_length_of_lookup {α : Type} (l : List α) (a : Nat) (x : α) (h : l[a]? = some x) :
    a < l.length := by
  rcases Nat.lt_or_ge a l.length with h1 | h1
  · exact h1
  · rw [List.getElem?_eq_none h1] at h
    cases h

end daal

namespace daal.algorithms.neural_networks.layers

open services data_management

/-! ## lrn backward `Input::check` with gradient propagation off -/

/-- C1: when `propagateGradient` is false, `Input::check` of the backward lrn layer returns
at once for every input (also one whose tensors or forward `LayerData` are absent), every
base-class check, every `checkTensor` and every state of the error collection: the
collection is unchanged, no step was executed (neither the base-class check nor any
`checkTensor`, so no tensor of the input was read), and the call returned normally. -/
theorem lrn_backward_input_check_skipped_without_gradient
    (baseCheck : lrn.backward.BaseCheckFn) (ct : CheckTensorFn) (input : lrn.backward.Input)
    (par : Parameter) (method : Int) (errors : ErrorCollection)
    (h : par.propagateGradient = false) :
    lrn.backward.Input.check baseCheck ct input par method errors
      = { errors := errors, trace := [], status := .returned } := by
  simp [lrn.backward.Input.check, h]

/-- The witness of C1: an input with every tensor and the forward `LayerData` absent, a
base-class check that would add an entry, and a collection that already holds an entry. -/
theorem lrn_backward_input_check_skipped_without_gradient_witness :
    lrn.backward.Input.check (fun _ _ _ _ => [{ id := .other 7 }]) checkTensor
        { inputGradient := none, inputFromForward := none }
        { propagateGradient := false, predictionStage := false } 0 [{ id := .ErrorNullResult }]
      = { errors := [{ id := .ErrorNullResult }], trace := [], status := .returned } :=
  lrn_backward_input_check_skipped_without_gradient _ _ _ _ _ _ rfl

/-! ## lrn backward `Input::check` with gradient propagation on -/

/-- The modelled `checkTensor` accepts, against a reference shape, exactly the present
tensors of that shape. -/
theorem checkTensor_ok_iff (t : TensorPtr) (e : ErrorCollection) (s : String) (d : List Nat) :
    (checkTensor t e s (some d)).ok = true ↔ ∃ a, t = some a ∧ a.dims = d := by
  unfold checkTensor
  cases t with
  | none => simp
  | some t =>
    simp only
    split_ifs with h1 h2
    · simp only [Bool.false_eq_true, Option.some.injEq, exists_eq_left', false_iff]
      intro hd
      exact h1 (by rw [hd])
    · simpa using h2
    · simp only [ne_eq, Decidable.not_not] at h2
      simp [h2]

/-- The modelled `checkTensor` adds nothing exactly when it accepts. -/
theorem checkTensor_appended_nil_iff (t : TensorPtr) (e : ErrorCollection) (s : String)
    (d : Option (List Nat)) :
    (checkTensor t e s d).appended = [] ↔ (checkTensor t e s d).ok = true := by
  unfold checkTensor
  cases t with
  | none => simp
  | some t =>
    cases d with
    | none => simp
    | some d =>
      simp only
      split_ifs
      all_goals simp

/-- C6: `Input::check` of the backward lrn layer, with `propagateGradient` true, an empty
error collection on entry and a present forward `LayerData`: (1) the call returns normally
for every input; (2) the collection is empty afterwards if and only if the base-class
check added nothing, `inputGradient` is present, and `auxData` and `auxSmBeta` are both
present with the dimensions of `inputGradient`; (3) the dimensions of `inputGradient` are
read only when it is present and directly after `checkTensor` accepted it; (4) an
`auxData` or `auxSmBeta` identifier that is missing from the `LayerData` gives the entry
`ErrorNullTensor` for that argument. -/
theorem lrn_backward_input_check_presence_and_shape
    (baseCheck : lrn.backward.BaseCheckFn) (ig : TensorPtr) (ld : LayerData)
    (par : Parameter) (method : Int) (h : par.propagateGradient = true) :
    (lrn.backward.Input.check baseCheck checkTensor
        { inputGradient := ig, inputFromForward := some ld } par method []).status = .returned
    ∧ ((lrn.backward.Input.check baseCheck checkTensor
          { inputGradient := ig, inputFromForward := some ld } par method []).errors = [] ↔
        baseCheck { inputGradient := ig, inputFromForward := some ld } par method [] = []
        ∧ ∃ g, ig = some g
          ∧ (∃ a, ld.lookup lrn.backward.LayerDataId.auxData.key = some a ∧ a.dims = g.dims)
          ∧ (∃ b, ld.lookup lrn.backward.LayerDataId.auxSmBeta.key = some b ∧ b.dims = g.dims))
    ∧ (∀ i ev, (lrn.backward.Input.check baseCheck checkTensor
          { inputGradient := ig, inputFromForward := some ld } par method []).trace[i]? = some ev →
        ev.step = .getDimensions →
        ig.isSome = true ∧ 0 < i ∧ (lrn.backward.Input.check baseCheck checkTensor
          { inputGradient := ig, inputFromForward := some ld } par method []).trace[i - 1]?
            = some { step := .checkInputGradient, failed := false, appended := [] })
    ∧ (∀ g, baseCheck { inputGradient := ig, inputFromForward := some ld } par method [] = [] →
        ig = some g →
        (ld.lookup lrn.backward.LayerDataId.auxData.key = none →
          (lrn.backward.Input.check baseCheck checkTensor
            { inputGradient := ig, inputFromForward := some ld } par method []).errors
            = [{ id := .ErrorNullTensor, argumentName := some lrn.backward.auxDataStr }])
        ∧ (∀ a, ld.lookup lrn.backward.LayerDataId.auxData.key = some a → a.dims = g.dims →
          ld.lookup lrn.backward.LayerDataId.auxSmBeta.key = none →
          (lrn.backward.Input.check baseCheck checkTensor
            { inputGradient := ig, inputFromForward := some ld } par method []).errors
            = [{ id := .ErrorNullTensor, argumentName := some lrn.backward.auxSmBetaStr }])) := by
  cases ha : baseCheck { inputGradient := ig, inputFromForward := some ld } par method [] with
  | cons x xs =>
    have hrun : lrn.backward.Input.check baseCheck checkTensor
        { inputGradient := ig, inputFromForward := some ld } par method []
        = { errors := x :: xs, trace := [{ step := .baseCheck, failed := true, appended := x :: xs }],
            status := .returned } := by
      simp [lrn.backward.Input.check, h, ha, ErrorCollection.size]
    rw [hrun]
    refine ⟨rfl, by simp, ?_, by simp⟩
    intro i ev hi hs
    rcases i with _ | i <;> simp at hi
    subst hi
    simp at hs
  | nil =>
    cases ig with
    | none =>
      have hrun : lrn.backward.Input.check baseCheck checkTensor
          { inputGradient := none, inputFromForward := some ld } par method []
          = { errors := [{ id := .ErrorNullTensor, argumentName := some lrn.backward.inputGradientStr }],
              trace := [{ step := .baseCheck, failed := false, appended := [] },
                { step := .checkInputGradient, failed := true,
                  appended := [{ id := .ErrorNullTensor, argumentName := some lrn.backward.inputGradientStr }] }],
              status := .returned } := by
        simp [lrn.backward.Input.check, h, ha, ErrorCollection.size, checkTensor]
      rw [hrun]
      refine ⟨rfl, by simp, ?_, by simp⟩
      intro i ev hi hs
      rcases i with _ | _ | i <;> simp at hi
      all_goals (subst hi; simp at hs)
    | some g =>
      have hig : checkTensor (some g) [] lrn.backward.inputGradientStr none = { ok := true, appended := [] } := rfl
      have hc2 := checkTensor_ok_iff (ld.lookup lrn.backward.LayerDataId.auxData.key) [] lrn.backward.auxDataStr g.dims
      have hn2 := checkTensor_appended_nil_iff (ld.lookup lrn.backward.LayerDataId.auxData.key) [] lrn.backward.auxDataStr
        (some g.dims)
      cases hok2 : (checkTensor (ld.lookup lrn.backward.LayerDataId.auxData.key) [] lrn.backward.auxDataStr (some g.dims)).ok
      · have hrun : lrn.backward.Input.check baseCheck checkTensor
            { inputGradient := some g, inputFromForward := some ld } par method []
            = { errors := (checkTensor (ld.lookup lrn.backward.LayerDataId.auxData.key) [] lrn.backward.auxDataStr
                  (some g.dims)).appended,
                trace := [{ step := .baseCheck, failed := false, appended := [] },
                  { step := .checkInputGradient, failed := false, appended := [] },
                  { step := .getDimensions, failed := false, appended := [] },
                  { step := .checkAuxData, failed := true,
                    appended := (checkTensor (ld.lookup lrn.backward.LayerDataId.auxData.key) [] lrn.backward.auxDataStr
                      (some g.dims)).appended }],
                status := .returned } := by
          simp [lrn.backward.Input.check, lrn.backward.Input.get, h, ha, ErrorCollection.size,
            hok2, hig]
        rw [hrun]
        have hno : ¬ ∃ a, ld.lookup lrn.backward.LayerDataId.auxData.key = some a ∧ a.dims = g.dims := by
          rw [← hc2, hok2]; simp
        refine ⟨rfl, ?_, ?_, ?_⟩
        · constructor
          · intro he
            rw [hn2.mp he] at hok2
            simp at hok2
          · rintro ⟨-, g1, hg, h2, -⟩
            cases hg
            exact absurd h2 hno
        · intro i ev hi hs
          rcases i with _ | _ | _ | _ | i <;> simp at hi
          all_goals (subst hi; simp at hs ⊢)
        · intro g1 _ hg
          cases hg
          refine ⟨?_, ?_⟩
          · intro hnone
            simp [checkTensor, hnone]
          · intro a hsome hd _
            exact absurd ⟨a, hsome, hd⟩ hno
      · have hc3 := checkTensor_ok_iff (ld.lookup lrn.backward.LayerDataId.auxSmBeta.key) [] lrn.backward.auxSmBetaStr g.dims
        have hn3 := checkTensor_appended_nil_iff (ld.lookup lrn.backward.LayerDataId.auxSmBeta.key) []
          lrn.backward.auxSmBetaStr (some g.dims)
        have ha2 := hn2.mpr hok2
        have hrun : lrn.backward.Input.check baseCheck checkTensor
            { inputGradient := some g, inputFromForward := some ld } par method []
            = { errors := (checkTensor (ld.lookup lrn.backward.LayerDataId.auxSmBeta.key) [] lrn.backward.auxSmBetaStr
                  (some g.dims)).appended,
                trace := [{ step := .baseCheck, failed := false, appended := [] },
                  { step := .checkInputGradient, failed := false, appended := [] },
                  { step := .getDimensions, failed := false, appended := [] },
                  { step := .checkAuxData, failed := false, appended := [] },
                  { step := .checkAuxSmBeta,
                    failed := !(checkTensor (ld.lookup lrn.backward.LayerDataId.auxSmBeta.key) [] lrn.backward.auxSmBetaStr
                      (some g.dims)).ok,
                    appended := (checkTensor (ld.lookup lrn.backward.LayerDataId.auxSmBeta.key) [] lrn.backward.auxSmBetaStr
                      (some g.dims)).appended }],
                status := .returned } := by
          simp [lrn.backward.Input.check, lrn.backward.Input.get, h, ha, ErrorCollection.size,
            hok2, hig, ha2]
        rw [hrun]
        have hyes := hc2.mp hok2
        refine ⟨rfl, ?_, ?_, ?_⟩
        · rw [hn3, hc3]
          constructor
          · intro h3
            exact ⟨rfl, g, rfl, hyes, h3⟩
          · rintro ⟨-, g1, hg, -, h3⟩
            cases hg
            exact h3
        · intro i ev hi hs
          rcases i with _ | _ | _ | _ | _ | i <;> simp at hi
          all_goals (subst hi; simp at hs ⊢)
        · intro g1 _ hg
          cases hg
          refine ⟨?_, ?_⟩
          · intro hnone
            obtain ⟨a, hsome, -⟩ := hyes
            rw [hnone] at hsome
            cases hsome
          · intro a _ _ hnone
            simp [checkTensor, hnone]

/-- The witness of C6: a present gradient, a fitting `auxData`, and a `LayerData` without
the `auxSmBeta` identifier. -/
theorem lrn_backward_input_check_presence_and_shape_witness :
    lrn.backward.sampleParameter.propagateGradient = true
    ∧ (lrn.backward.Input.check lrn.backward.sampleBaseCheck checkTensor
        { inputGradient := some lrn.backward.sampleGradient
          inputFromForward := some lrn.backward.sampleLayerDataNoSmBeta }
        lrn.backward.sampleParameter 0 []).status = .returned
    ∧ (lrn.backward.Input.check lrn.backward.sampleBaseCheck checkTensor
        { inputGradient := some lrn.backward.sampleGradient
          inputFromForward := some lrn.backward.sampleLayerDataNoSmBeta }
        lrn.backward.sampleParameter 0 []).errors
      = [{ id := .ErrorNullTensor, argumentName := some lrn.backward.auxSmBetaStr }] :=
  ⟨rfl,
    (lrn_backward_input_check_presence_and_shape lrn.backward.sampleBaseCheck
      (some lrn.backward.sampleGradient) lrn.backward.sampleLayerDataNoSmBeta
      lrn.backward.sampleParameter 0 rfl).1,
    ((lrn_backward_input_check_presence_and_shape lrn.backward.sampleBaseCheck
      (some lrn.backward.sampleGradient) lrn.backward.sampleLayerDataNoSmBeta
      lrn.backward.sampleParameter 0 rfl).2.2.2 lrn.backward.sampleGradient rfl rfl).2
      { addr := 2, kind := .homogen .float, dims := [2, 3] } rfl rfl rfl⟩

/-! ## lrn backward `Result::check` -/

/-- C7: when `propagateGradient` is false, `Result::check` of the backward lrn layer is a
no-op for every input and every result (also one with no gradient tensor): the error
collection afterwards is the collection before; the method is `const` and the embedding
has no other state it could change. -/
theorem lrn_backward_result_check_skipped_without_gradient
    (self : lrn.backward.Result) (input : lrn.backward.Input) (par : Parameter) (method : Int)
    (errors : ErrorCollection) (h : par.propagateGradient = false) :
    lrn.backward.Result.check self input par method errors = errors := by
  simp [lrn.backward.Result.check, h]

/-- The witness of C7: a result with no gradient tensor. -/
theorem lrn_backward_result_check_skipped_without_gradient_witness :
    lrn.backward.Result.check { gradient := none }
        { inputGradient := some lrn.backward.sampleGradient, inputFromForward := none }
        { propagateGradient := false, predictionStage := false } 0 [{ id := .other 3 }]
      = [{ id := .other 3 }] :=
  lrn_backward_result_check_skipped_without_gradient _ _ _ _ _ rfl

/-- C8, the code at the failing inputs: with `propagateGradient` true, `Result::check` of
the backward lrn layer adds nothing to an empty error collection for a result whose
gradient is absent, and nothing for a result whose gradient has other dimensions than the
input gradient. -/
theorem lrn_backward_result_check_accepts_bad_gradient :
    lrn.backward.Result.check { gradient := none }
        { inputGradient := some lrn.backward.sampleGradient, inputFromForward := none }
        lrn.backward.sampleParameter 0 [] = []
    ∧ lrn.backward.Result.check
        { gradient := some { addr := 4, kind := .homogen .float, dims := [5] } }
        { inputGradient := some lrn.backward.sampleGradient, inputFromForward := none }
        lrn.backward.sampleParameter 0 [] = [] := by
  constructor <;> rfl

/-! ## relu backward `Result::allocate` -/

/-- C2: when `propagateGradient` is false, `Result::allocate` of the backward relu layer
leaves the whole result object as it was (the gradient stays what it was, unset if it was
unset), adds nothing to the error collection and allocates nothing, for every input (also
one whose `auxData` is absent) and every result. -/
theorem relu_backward_allocate_untouched_without_gradient
    (fp : FPType) (self : relu.backward.Result) (input : relu.backward.Input)
    (parameter : Parameter) (method : Int) (errors : ErrorCollection) (nextAddr : Nat)
    (h : parameter.propagateGradient = false) :
    relu.backward.Result.allocate fp self input parameter method errors nextAddr
      = { result := self, errors := errors, nextAddr := nextAddr } := by
  simp [relu.backward.Result.allocate, h]

/-- The witness of C2: an input with `auxData` absent and a result with no gradient. -/
theorem relu_backward_allocate_untouched_without_gradient_witness :
    relu.backward.Result.allocate .float
        { gradient := none, weightDerivatives := none, biasDerivatives := none }
        { inputGradient := none, auxData := none }
        { propagateGradient := false, predictionStage := false } 0 [] 5
      = { result := { gradient := none, weightDerivatives := none, biasDerivatives := none }
          errors := [], nextAddr := 5 } :=
  relu_backward_allocate_untouched_without_gradient _ _ _ _ _ _ _ rfl

/-- C3: `Result::allocate` of the backward relu layer never replaces a gradient that is
already set (for every input and parameter a result whose gradient is the tensor `g`
still has gradient `g` after the call, and no other field changed), and it is idempotent
on the result: a second call with the same input and parameter, in any state of the error
collection and of the free store, leaves the result object, and so its gradient
reference, exactly as the first call left it. -/
theorem relu_backward_allocate_keeps_gradient_and_is_idempotent
    (fp : FPType) (self : relu.backward.Result) (g : Tensor) (input : relu.backward.Input)
    (parameter : Parameter) (method : Int) (errors errors2 : ErrorCollection)
    (nextAddr nextAddr2 : Nat) :
    (relu.backward.Result.allocate fp { self with gradient := some g } input parameter method
        errors nextAddr).result = { self with gradient := some g }
    ∧ (relu.backward.Result.allocate fp
        (relu.backward.Result.allocate fp self input parameter method errors nextAddr).result
        input parameter method errors2 nextAddr2).result
      = (relu.backward.Result.allocate fp self input parameter method errors nextAddr).result
    ∧ (relu.backward.Result.allocate fp
        (relu.backward.Result.allocate fp self input parameter method errors nextAddr).result
        input parameter method
        (relu.backward.Result.allocate fp self input parameter method errors nextAddr).errors
        (relu.backward.Result.allocate fp self input parameter method errors nextAddr).nextAddr
        ).result.gradient
      = (relu.backward.Result.allocate fp self input parameter method errors nextAddr).result.gradient := by
  have idem : ∀ (e2 : ErrorCollection) (n2 : Nat),
      (relu.backward.Result.allocate fp
        (relu.backward.Result.allocate fp self input parameter method errors nextAddr).result
        input parameter method e2 n2).result
      = (relu.backward.Result.allocate fp self input parameter method errors nextAddr).result := by
    intro e2 n2
    cases hp : parameter.propagateGradient
    · simp [relu.backward.Result.allocate, hp]
    · cases ha : input.auxData with
      | none => simp [relu.backward.Result.allocate, hp, ha]
      | some vt =>
        cases hg : self.gradient with
        | some g0 => simp [relu.backward.Result.allocate, hp, ha, hg]
        | none =>
          cases hh : (relu.backward.dynamicCastHomogen fp input.inputGradient).isSome
          · simp [relu.backward.Result.allocate, hp, ha, hg, hh]
          · have hin : input.inputGradient.isSome = true := by
              cases hi : input.inputGradient with
              | none => simp [relu.backward.dynamicCastHomogen, hi] at hh
              | some t => rfl
            cases hi : input.inputGradient with
            | none => simp [hi] at hin
            | some t =>
              simp [relu.backward.Result.allocate, hp, ha, hg, hi] at hh ⊢
              simp [hh]
  refine ⟨?_, idem errors2 nextAddr2, ?_⟩
  · cases hp : parameter.propagateGradient
    · simp [relu.backward.Result.allocate, hp]
    · cases ha : input.auxData <;> simp [relu.backward.Result.allocate, hp, ha]
  · rw [idem]

/-! ## spatial_pooling2d forward `Result::allocate` is idempotent -/

/-- C4: for every input whose data tensor is present, every result, parameter, method and
`getValueSize`, the first call of `Result::allocate` of the forward 2D spatial pooling
layer returns normally with the value tensor set, and a second call with the same input,
parameter and method in the state the first call left changes nothing: the same result
object (the same value reference, with its address and dimensions, and the same
`resultForBackward` reference), the same error collection, and nothing allocated. -/
theorem spatial_pooling2d_forward_allocate_idempotent
    (fp : FPType) (getValueSize : spatial_pooling2d.forward.GetValueSizeFn)
    (self : spatial_pooling2d.forward.Result) (data : Tensor) (parameter : Parameter)
    (method : Int) (errors : ErrorCollection) (nextAddr : Nat) :
    (spatial_pooling2d.forward.Result.allocate fp getValueSize self { data := some data }
        parameter method errors nextAddr).status = .returned
    ∧ (spatial_pooling2d.forward.Result.allocate fp getValueSize self { data := some data }
        parameter method errors nextAddr).result.value.isSome = true
    ∧ spatial_pooling2d.forward.Result.allocate fp getValueSize
        (spatial_pooling2d.forward.Result.allocate fp getValueSize self { data := some data }
          parameter method errors nextAddr).result
        { data := some data } parameter method
        (spatial_pooling2d.forward.Result.allocate fp getValueSize self { data := some data }
          parameter method errors nextAddr).errors
        (spatial_pooling2d.forward.Result.allocate fp getValueSize self { data := some data }
          parameter method errors nextAddr).nextAddr
      = spatial_pooling2d.forward.Result.allocate fp getValueSize self { data := some data }
          parameter method errors nextAddr := by
  cases hv : self.value <;> cases hr : self.resultForBackward <;>
    cases hp : parameter.predictionStage <;>
    simp [spatial_pooling2d.forward.Result.allocate, hv, hr, hp]

end daal.algorithms.neural_networks.layers

/-! ## Cloning a LogitBoost prediction `Batch` -/

namespace daal.algorithms.logitboost.prediction

/-- C9: cloning a LogitBoost prediction `Batch`. For every `Batch` `b` living at address
`a` of the store: the copy made by the copy constructor at any address has the parameter of
`b` (so the same `nClasses`), its input returns for `data` and `model` the very references
of `b`, and its `_par` and `_in` point at the copy itself; the object made by `clone()` is
that copy, placed at a new address different from `a`, and `b` is unchanged by the clone;
assigning the parameter of the clone, or setting an input of the clone, changes the clone
and leaves `b` (its parameter and its input) exactly as it was. -/
theorem logitboost_batch_clone_copies_parameter_shares_input (w : World) (a : Nat) (b : Batch)
    (this k : Nat) (hb : w.batches[a]? = some b) :
    (Batch.copyConstruct b this k).1.parameter = b.parameter
    ∧ (Batch.copyConstruct b this k).1.parameter.nClasses = b.parameter.nClasses
    ∧ (Batch.copyConstruct b this k).1.input.get .data = b.input.get .data
    ∧ (Batch.copyConstruct b this k).1.input.get .model = b.input.get .model
    ∧ (Batch.copyConstruct b this k).1._par = some this
    ∧ (Batch.copyConstruct b this k).1._in = some this
    ∧ (b.clone w).1.batches[(b.clone w).2]?
        = some (Batch.copyConstruct b (b.clone w).2 w.containers).1
    ∧ (b.clone w).2 ≠ a
    ∧ (b.clone w).1.batches[a]? = some b
    ∧ (∀ p : Parameter,
        ((b.clone w).1.setParameter (b.clone w).2 p).batches[(b.clone w).2]?
          = some { (Batch.copyConstruct b (b.clone w).2 w.containers).1 with parameter := p }
        ∧ ((b.clone w).1.setParameter (b.clone w).2 p).batches[a]? = some b)
    ∧ (∀ (id : InputId) (v : DataPtr),
        ((b.clone w).1.setInput (b.clone w).2 id v).batches[(b.clone w).2]?
          = some { (Batch.copyConstruct b (b.clone w).2 w.containers).1 with
              input := (Batch.copyConstruct b (b.clone w).2 w.containers).1.input.set id v }
        ∧ ((b.clone w).1.setInput (b.clone w).2 id v).batches[a]? = some b) := by
  have ha : a < w.batches.length := daal.store_length_of_lookup _ _ _ hb
  have hne : w.batches.length ≠ a := Nat.ne_of_gt ha
  have hc : (b.clone w).1.batches[(b.clone w).2]?
        = some (Batch.copyConstruct b (b.clone w).2 w.containers).1 := by
    simp [Batch.clone]
  have hold : (b.clone w).1.batches[a]? = some b := by
    simp [Batch.clone, List.getElem?_append_left ha, hb]
  refine ⟨rfl, rfl, rfl, rfl, rfl, rfl, hc, hne, hold, ?_, ?_⟩
  · intro p
    constructor
    · simp [World.setParameter, hc]
      simp [Batch.clone]
    · simp only [World.setParameter, hc]
      rw [List.getElem?_set_ne (by simpa [Batch.clone] using hne)]
      exact hold
  · intro id v
    constructor
    · simp [World.setInput, hc]
      simp [Batch.clone]
    · simp only [World.setInput, hc]
      rw [List.getElem?_set_ne (by simpa [Batch.clone] using hne)]
      exact hold

/-- The witness of C9: the sample `Batch` at address 0 of the sample store. -/
theorem logitboost_batch_clone_copies_parameter_shares_input_witness :
    sampleWorld.batches[0]? = some sampleBatch
    ∧ (Batch.copyConstruct sampleBatch 5 9).1.parameter.nClasses = sampleBatch.parameter.nClasses
    ∧ (Batch.copyConstruct sampleBatch 5 9).1._par = some 5
    ∧ (sampleBatch.clone sampleWorld).2 ≠ 0
    ∧ ((sampleBatch.clone sampleWorld).1.setParameter (sampleBatch.clone sampleWorld).2
        { nClasses := 9, otherFields := [] }).batches[0]? = some sampleBatch :=
  ⟨rfl,
    (logitboost_batch_clone_copies_parameter_shares_input sampleWorld 0 sampleBatch 5 9 rfl).2.1,
    (logitboost_batch_clone_copies_parameter_shares_input sampleWorld 0 sampleBatch 5 9 rfl).2.2.2.2.1,
    (logitboost_batch_clone_copies_parameter_shares_input sampleWorld 0 sampleBatch 5 9
      rfl).2.2.2.2.2.2.2.1,
    ((logitboost_batch_clone_copies_parameter_shares_input sampleWorld 0 sampleBatch 5 9
      rfl).2.2.2.2.2.2.2.2.2.1 { nClasses := 9, otherFields := [] }).2⟩

end daal.algorithms.logitboost.prediction

/-! ## Cloning a KD-tree kNN training `Batch` -/

namespace daal.algorithms.kdtree_knn_classification.training

/-- C10: cloning a KD-tree kNN training `Batch` isolates the original. For every `Batch`
`b` living at address `a` of the store whose result pointer, when set, points at an
existing `Result`: the clone `cb` lives at a new address different from `a`, has the
parameter of `b`, its `_par` points at the clone itself, its `_result` points at a `Result`
object `rc` that did not exist before, is empty, and is not the `Result` of `b`; the clone
leaves `b` and all existing `Result` objects as they were; assigning the parameter of the
clone changes the clone only, and writing into the `Result` of the clone changes that
object only, leaving `b` and the `Result` of `b` untouched. -/
theorem kdtree_batch_clone_isolates_original (w : World) (a : Nat) (b : Batch)
    (hb : w.batches[a]? = some b) (hres : ∀ r, b._result = some r → r < w.results.length) :
    ∃ (cb : Batch) (rc : Nat),
      (b.clone w).1.batches[(b.clone w).2]? = some cb
      ∧ cb.parameter = b.parameter
      ∧ cb._par = some (b.clone w).2
      ∧ (b.clone w).2 ≠ a
      ∧ cb._result = some rc
      ∧ w.results[rc]? = none
      ∧ (b.clone w).1.results[rc]? = some Result.empty
      ∧ b._result ≠ some rc
      ∧ (b.clone w).1.batches[a]? = some b
      ∧ (∀ r, r < w.results.length → (b.clone w).1.results[r]? = w.results[r]?)
      ∧ (∀ p : Parameter,
          ((b.clone w).1.setParameter (b.clone w).2 p).batches[(b.clone w).2]?
            = some { cb with parameter := p }
          ∧ ((b.clone w).1.setParameter (b.clone w).2 p).batches[a]? = some b
          ∧ ((b.clone w).1.setParameter (b.clone w).2 p).results = (b.clone w).1.results)
      ∧ (∀ value : Result,
          ((b.clone w).1.fillResult rc value).results[rc]? = some value
          ∧ ((b.clone w).1.fillResult rc value).batches[a]? = some b
          ∧ (∀ r, b._result = some r →
              ((b.clone w).1.fillResult rc value).results[r]? = w.results[r]?)) := by
  have ha : a < w.batches.length := daal.store_length_of_lookup _ _ _ hb
  have hne : w.batches.length ≠ a := Nat.ne_of_gt ha
  have hc : (b.clone w).1.batches[(b.clone w).2]?
      = some (Batch.copyConstruct b w.batches.length w.results w.containers).self := by
    simp [Batch.clone]
  have hold : (b.clone w).1.batches[a]? = some b := by
    simp [Batch.clone, List.getElem?_append_left ha, hb]
  have hresults : (b.clone w).1.results = w.results ++ [Result.empty] := rfl
  have hfresh : b._result ≠ some w.results.length := by
    intro h
    exact Nat.lt_irrefl _ (hres _ h)
  refine ⟨_, w.results.length, hc, rfl, rfl, hne, rfl, by simp, by simp [hresults], hfresh, hold,
    ?_, ?_, ?_⟩
  · intro r hr
    rw [hresults, List.getElem?_append_left hr]
  · intro p
    refine ⟨?_, ?_, ?_⟩
    · simp [World.setParameter, hc]
      simp [Batch.clone]
    · simp only [World.setParameter, hc]
      rw [List.getElem?_set_ne (by simpa [Batch.clone] using hne)]
      exact hold
    · simp only [World.setParameter, hc]
  · intro value
    refine ⟨by simp [World.fillResult, hresults], by simpa [World.fillResult] using hold, ?_⟩
    intro r hr
    have hlt := hres r hr
    simp only [World.fillResult, hresults]
    rw [List.getElem?_set_ne (Nat.ne_of_gt hlt), List.getElem?_append_left hlt]

/-- The witness of C10: the sample `Batch`, whose result was registered with `setResult`. -/
theorem kdtree_batch_clone_isolates_original_witness :
    sampleWorld.batches[0]? = some sampleBatch
    ∧ (∀ r, sampleBatch._result = some r → r < sampleWorld.results.length)
    ∧ ∃ (cb : Batch) (rc : Nat),
      (sampleBatch.clone sampleWorld).1.batches[(sampleBatch.clone sampleWorld).2]? = some cb
      ∧ cb.parameter = sampleBatch.parameter
      ∧ cb._par = some (sampleBatch.clone sampleWorld).2
      ∧ (sampleBatch.clone sampleWorld).2 ≠ 0
      ∧ cb._result = some rc
      ∧ sampleWorld.results[rc]? = none
      ∧ (sampleBatch.clone sampleWorld).1.results[rc]? = some Result.empty
      ∧ sampleBatch._result ≠ some rc
      ∧ (sampleBatch.clone sampleWorld).1.batches[0]? = some sampleBatch
      ∧ (∀ r, r < sampleWorld.results.length →
          (sampleBatch.clone sampleWorld).1.results[r]? = sampleWorld.results[r]?)
      ∧ (∀ p : Parameter,
          ((sampleBatch.clone sampleWorld).1.setParameter (sampleBatch.clone sampleWorld).2
              p).batches[(sampleBatch.clone sampleWorld).2]? = some { cb with parameter := p }
          ∧ ((sampleBatch.clone sampleWorld).1.setParameter (sampleBatch.clone sampleWorld).2
              p).batches[0]? = some sampleBatch
          ∧ ((sampleBatch.clone sampleWorld).1.setParameter (sampleBatch.clone sampleWorld).2
              p).results = (sampleBatch.clone sampleWorld).1.results)
      ∧ (∀ value : Result,
          ((sampleBatch.clone sampleWorld).1.fillResult rc value).results[rc]? = some value
          ∧ ((sampleBatch.clone sampleWorld).1.fillResult rc value).batches[0]? = some sampleBatch
          ∧ (∀ r, sampleBatch._result = some r →
              ((sampleBatch.clone sampleWorld).1.fillResult rc value).results[r]?
                = sampleWorld.results[r]?)) :=
  ⟨rfl, fun r h => by cases h; decide,
    kdtree_batch_clone_isolates_original sampleWorld 0 sampleBatch rfl
      (fun r h => by cases h; decide)⟩

end daal.algorithms.kdtree_knn_classification.training

/-! ## lrn backward `Input::set` and `Input::get` -/

namespace daal.algorithms.neural_networks.layers

open services data_management

/-- After overwriting the entries of key `k`, the first entry of key `k` holds the new value. -/
theorem find_map_overwrite_self (l : List (Nat × TensorPtr)) (k : Nat) (v : TensorPtr)
    (h : l.any (fun e => e.1 == k) = true) :
    (l.map (fun e => if e.1 == k then (k, v) else e)).find? (fun e => e.1 == k) = some (k, v) := by
  induction l with
  | nil => simp at h
  | cons e es ih =>
    rw [List.map_cons, List.find?_cons]
    by_cases he : e.1 = k
    · simp only [he, beq_self_eq_true, if_true]
    · have hes : es.any (fun e => e.1 == k) = true := by
        simpa [he] using h
      have hb : (e.1 == k) = false := by simpa using he
      simp only [hb, Bool.false_eq_true, if_false]
      exact ih hes

/-- Overwriting the entries of key `k` does not change the first entry of another key. -/
theorem find_map_overwrite_other (l : List (Nat × TensorPtr)) (k k2 : Nat) (v : TensorPtr)
    (h : k2 ≠ k) :
    (l.map (fun e => if e.1 == k then (k, v) else e)).find? (fun e => e.1 == k2)
      = l.find? (fun e => e.1 == k2) := by
  induction l with
  | nil => rfl
  | cons e es ih =>
    rw [List.map_cons, List.find?_cons, List.find?_cons, ih]
    have hkk : (k == k2) = false := by simpa using Ne.symm h
    by_cases he : e.1 = k
    · simp only [he, beq_self_eq_true, if_true, hkk]
    · have hb : (e.1 == k) = false := by simpa using he
      simp only [hb, Bool.false_eq_true, if_false]

/-- A key that no entry has is not found. -/
theorem find_none_of_any_false (l : List (Nat × TensorPtr)) (k : Nat)
    (h : l.any (fun e => e.1 == k) = false) : l.find? (fun e => e.1 == k) = none := by
  induction l with
  | nil => rfl
  | cons e es ih =>
    simp only [List.any_cons, Bool.or_eq_false_iff] at h
    simp [List.find?_cons, h.1, ih h.2]

/-- The lookup of an identifier returns what was last assigned to it. -/
theorem LayerData.lookup_assign_self (ld : LayerData) (k : Nat) (v : TensorPtr) :
    (ld.assign k v).lookup k = v := by
  unfold LayerData.assign LayerData.lookup
  cases h : ld.entries.any (fun e => e.1 == k)
  · simp only [Bool.false_eq_true, if_false, List.find?_append, find_none_of_any_false _ _ h]
    simp
  · simp only [if_true, find_map_overwrite_self _ _ _ h]

/-- An assignment does not change the lookup of another identifier. -/
theorem LayerData.lookup_assign_other (ld : LayerData) (k k2 : Nat) (v : TensorPtr) (hne : k2 ≠ k) :
    (ld.assign k v).lookup k2 = ld.lookup k2 := by
  unfold LayerData.assign LayerData.lookup
  cases h : ld.entries.any (fun e => e.1 == k)
  · simp only [Bool.false_eq_true, if_false, List.find?_append]
    cases hf : ld.entries.find? (fun e => e.1 == k2) with
    | some e => simp
    | none => simp [Ne.symm hne]
  · simp only [if_true, find_map_overwrite_other _ _ _ _ hne]

/-- C19: the round trip of `Input::set` and `Input::get` of the backward lrn layer on the
forward `LayerData`. For every input whose `inputFromForward` is present, every identifier
`id` and every tensor reference `v`: `set(id, v)` returns normally, afterwards `get(id)`
returns the reference `v`, `get(id2)` returns for every other identifier `id2` what it
returned before the `set`, and `inputGradient` is unchanged. -/
theorem lrn_backward_input_set_get_round_trip
    (inputGradient : TensorPtr) (ld : LayerData) (id : lrn.backward.LayerDataId)
    (v : TensorPtr) :
    ∃ after : lrn.backward.Input,
      lrn.backward.Input.set { inputGradient := inputGradient, inputFromForward := some ld } id v
        = .ok after
      ∧ after.get id = .ok v
      ∧ (∀ id2, id2 ≠ id →
          after.get id2
            = lrn.backward.Input.get
                { inputGradient := inputGradient, inputFromForward := some ld } id2)
      ∧ after.inputGradient = inputGradient := by
  refine ⟨_, rfl, ?_, ?_, rfl⟩
  · simp [lrn.backward.Input.get, LayerData.lookup_assign_self]
  · intro id2 hne
    have hk : id2.key ≠ id.key := by
      cases id <;> cases id2 <;> simp [lrn.backward.LayerDataId.key] at hne ⊢
    simp [lrn.backward.Input.get, LayerData.lookup_assign_other _ _ _ _ hk]

/-! ## relu backward `Result::allocate` with gradient propagation on -/

/-- C11: with `propagateGradient` true and `auxData` absent, `Result::allocate` of the
backward relu layer adds exactly one entry, `ErrorNullInputNumericTable`, at the end of the
error collection, returns, allocates nothing and leaves every field of the result (in
particular the gradient) as it was. -/
theorem relu_backward_allocate_records_missing_aux_data
    (fp : FPType) (self : relu.backward.Result) (inputGradient : TensorPtr)
    (parameter : Parameter) (method : Int) (errors : ErrorCollection) (nextAddr : Nat)
    (h : parameter.propagateGradient = true) :
    relu.backward.Result.allocate fp self { inputGradient := inputGradient, auxData := none }
        parameter method errors nextAddr
      = { result := self
          errors := errors ++ [{ id := .ErrorNullInputNumericTable }]
          nextAddr := nextAddr } := by
  simp [relu.backward.Result.allocate, h, ErrorCollection.add]

/-- The witness of C11: an empty result, a present input gradient and no `auxData`. -/
theorem relu_backward_allocate_records_missing_aux_data_witness :
    relu.backward.sampleParameter.propagateGradient = true
    ∧ relu.backward.Result.allocate .float relu.backward.sampleResultEmpty
        { inputGradient := relu.backward.sampleInputHomogen.inputGradient, auxData := none }
        relu.backward.sampleParameter 0 [{ id := .other 1 }] 10
      = { result := relu.backward.sampleResultEmpty
          errors := [{ id := .other 1 }] ++ [{ id := .ErrorNullInputNumericTable }]
          nextAddr := 10 } :=
  ⟨rfl, relu_backward_allocate_records_missing_aux_data _ _ _ _ _ _ _ rfl⟩

/-- The cast succeeds exactly for a present tensor of type `HomogenTensor<algorithmFPType>`. -/
theorem dynamicCastHomogen_isSome_iff (fp : FPType) (p : TensorPtr) :
    (relu.backward.dynamicCastHomogen fp p).isSome = true ↔ ∃ t, p = some t ∧ t.kind = .homogen fp := by
  unfold relu.backward.dynamicCastHomogen
  cases p with
  | none => simp
  | some t => by_cases hk : t.kind = .homogen fp <;> simp [hk]

/-- C12, the counterexample: for the sample input whose gradient is a `HomogenTensor<float>`
and a result whose gradient is unset, `allocate` sets the gradient, and the gradient it
sets is the very reference of the `inputGradient` of the input; nothing was allocated. -/
theorem relu_backward_allocate_installs_input_gradient :
    relu.backward.sampleResultEmpty.gradient = none
    ∧ (relu.backward.Result.allocate .float relu.backward.sampleResultEmpty
        relu.backward.sampleInputHomogen relu.backward.sampleParameter 0 [] 10).result.gradient.isSome
      = true
    ∧ (relu.backward.Result.allocate .float relu.backward.sampleResultEmpty
        relu.backward.sampleInputHomogen relu.backward.sampleParameter 0 [] 10).result.gradient
      = relu.backward.sampleInputHomogen.inputGradient
    ∧ (relu.backward.Result.allocate .float relu.backward.sampleResultEmpty
        relu.backward.sampleInputHomogen relu.backward.sampleParameter 0 [] 10).nextAddr = 10 := by
  refine ⟨rfl, ?_, ?_, ?_⟩ <;> decide

/-- C12, as amended: with `propagateGradient` true, `auxData` present, the gradient of the
result unset, and the tensors of the input living below the next free address, the
gradient that `allocate` sets is (1) the `inputGradient` of the input itself, with nothing
allocated, when `inputGradient` is a `HomogenTensor` of the floating-point type of the
algorithm, and (2) otherwise a tensor allocated by this call at the next free address,
which is neither the `inputGradient` nor the `auxData` of the input. -/
theorem relu_backward_allocate_gradient_ownership
    (fp : FPType) (self : relu.backward.Result) (input : relu.backward.Input)
    (valueTable : Tensor) (parameter : Parameter) (method : Int) (errors : ErrorCollection)
    (nextAddr : Nat)
    (hp : parameter.propagateGradient = true) (ha : input.auxData = some valueTable)
    (hg : self.gradient = none)
    (hlive : ∀ t, input.inputGradient = some t ∨ input.auxData = some t → t.addr < nextAddr) :
    (∀ t, input.inputGradient = some t → t.kind = .homogen fp →
      (relu.backward.Result.allocate fp self input parameter method errors nextAddr).result.gradient
        = input.inputGradient
      ∧ (relu.backward.Result.allocate fp self input parameter method errors nextAddr).nextAddr
        = nextAddr)
    ∧ ((∀ t, input.inputGradient = some t → t.kind ≠ .homogen fp) →
      ∃ t, (relu.backward.Result.allocate fp self input parameter method errors
            nextAddr).result.gradient = some t
        ∧ t.addr = nextAddr
        ∧ (relu.backward.Result.allocate fp self input parameter method errors nextAddr).nextAddr
          = nextAddr + 1
        ∧ some t ≠ input.inputGradient
        ∧ some t ≠ input.auxData) := by
  constructor
  · intro t ht hk
    have hc : (relu.backward.dynamicCastHomogen fp input.inputGradient).isSome = true :=
      (dynamicCastHomogen_isSome_iff fp _).mpr ⟨t, ht, hk⟩
    simp [relu.backward.Result.allocate, hp, ha, hg, hc]
  · intro hk
    have hc : (relu.backward.dynamicCastHomogen fp input.inputGradient).isSome = false := by
      cases hcs : (relu.backward.dynamicCastHomogen fp input.inputGradient).isSome
      · rfl
      · obtain ⟨t, ht, htk⟩ := (dynamicCastHomogen_isSome_iff fp _).mp hcs
        exact absurd htk (hk t ht)
    refine ⟨{ addr := nextAddr, kind := .mkl fp, dims := valueTable.dims }, ?_, rfl, ?_, ?_, ?_⟩
    · simp [relu.backward.Result.allocate, hp, ha, hg, hc]
    · simp [relu.backward.Result.allocate, hp, ha, hg, hc]
    · intro heq
      have := hlive _ (Or.inl heq.symm)
      exact Nat.lt_irrefl _ this
    · intro heq
      have := hlive _ (Or.inr heq.symm)
      exact Nat.lt_irrefl _ this

/-- The witness of C12 as amended: the sample input whose gradient is of another type. -/
theorem relu_backward_allocate_gradient_ownership_witness :
    relu.backward.sampleParameter.propagateGradient = true
    ∧ relu.backward.sampleInputForeign.auxData
        = some { addr := 2, kind := .homogen .float, dims := [2, 3] }
    ∧ relu.backward.sampleResultEmpty.gradient = none
    ∧ ∃ t, (relu.backward.Result.allocate .float relu.backward.sampleResultEmpty
          relu.backward.sampleInputForeign relu.backward.sampleParameter 0 []
          10).result.gradient = some t
        ∧ t.addr = 10
        ∧ (relu.backward.Result.allocate .float relu.backward.sampleResultEmpty
          relu.backward.sampleInputForeign relu.backward.sampleParameter 0 [] 10).nextAddr
          = 10 + 1
        ∧ some t ≠ relu.backward.sampleInputForeign.inputGradient
        ∧ some t ≠ relu.backward.sampleInputForeign.auxData :=
  ⟨rfl, rfl, rfl,
    (relu_backward_allocate_gradient_ownership .float relu.backward.sampleResultEmpty
      relu.backward.sampleInputForeign { addr := 2, kind := .homogen .float, dims := [2, 3] }
      relu.backward.sampleParameter 0 [] 10 rfl rfl rfl
      (fun t h => by rcases h with h | h <;> cases h <;> decide)).2
      (fun t h => by cases h; decide)⟩

/-- C20: which tensor `Result::allocate` of the backward relu layer installs. With
`propagateGradient` true, `auxData` present and the gradient of the result unset: (1) when
`inputGradient` is a `HomogenTensor` of the floating-point type of the algorithm, the
gradient becomes that very reference and nothing is allocated; (2) otherwise
(`inputGradient` of another type, or absent) the gradient becomes a tensor allocated at the
next free address whose dimensions are those of `auxData`; in both cases no other field
of the result changes and (3) the error collection is unchanged. -/
theorem relu_backward_allocate_installed_tensor
    (fp : FPType) (self : relu.backward.Result) (inputGradient : TensorPtr)
    (valueTable : Tensor) (parameter : Parameter) (method : Int) (errors : ErrorCollection)
    (nextAddr : Nat) (hp : parameter.propagateGradient = true) :
    (∀ t, inputGradient = some t → t.kind = .homogen fp →
      relu.backward.Result.allocate fp { self with gradient := none }
          { inputGradient := inputGradient, auxData := some valueTable } parameter method errors
          nextAddr
        = { result := { self with gradient := some t }, errors := errors, nextAddr := nextAddr })
    ∧ ((∀ t, inputGradient = some t → t.kind ≠ .homogen fp) →
      relu.backward.Result.allocate fp { self with gradient := none }
          { inputGradient := inputGradient, auxData := some valueTable } parameter method errors
          nextAddr
        = { result := { self with
              gradient := some { addr := nextAddr, kind := .mkl fp, dims := valueTable.dims } }
            errors := errors
            nextAddr := nextAddr + 1 })
    ∧ (relu.backward.Result.allocate fp { self with gradient := none }
          { inputGradient := inputGradient, auxData := some valueTable } parameter method errors
          nextAddr).errors = errors := by
  refine ⟨?_, ?_, ?_⟩
  · intro t ht hk
    subst ht
    have hc : (relu.backward.dynamicCastHomogen fp (some t)).isSome = true :=
      (dynamicCastHomogen_isSome_iff fp _).mpr ⟨t, rfl, hk⟩
    simp [relu.backward.Result.allocate, hp, hc]
  · intro hk
    have hc : (relu.backward.dynamicCastHomogen fp inputGradient).isSome = false := by
      cases hcs : (relu.backward.dynamicCastHomogen fp inputGradient).isSome
      · rfl
      · obtain ⟨t, ht, htk⟩ := (dynamicCastHomogen_isSome_iff fp _).mp hcs
        exact absurd htk (hk t ht)
    simp [relu.backward.Result.allocate, hp, hc]
  · cases hcs : (relu.backward.dynamicCastHomogen fp inputGradient).isSome <;>
      simp [relu.backward.Result.allocate, hp, hcs]

/-- The witness of C20: the input gradient is of another type and has the dimension 7,
`auxData` has the dimensions 2 x 3, and the new gradient has the dimensions 2 x 3. -/
theorem relu_backward_allocate_installed_tensor_witness :
    relu.backward.sampleParameter.propagateGradient = true
    ∧ relu.backward.Result.allocate .float { relu.backward.sampleResultEmpty with gradient := none }
        { inputGradient := some { addr := 1, kind := .other 0, dims := [7] }
          auxData := some { addr := 2, kind := .homogen .float, dims := [2, 3] } }
        relu.backward.sampleParameter 0 [] 10
      = { result := { relu.backward.sampleResultEmpty with
            gradient := some { addr := 10, kind := .mkl .float, dims := [2, 3] } }
          errors := []
          nextAddr := 10 + 1 } :=
  ⟨rfl,
    (relu_backward_allocate_installed_tensor .float relu.backward.sampleResultEmpty
      (some { addr := 1, kind := .other 0, dims := [7] })
      { addr := 2, kind := .homogen .float, dims := [2, 3] }
      relu.backward.sampleParameter 0 [] 10 rfl).2.1 (fun t h => by cases h; decide)⟩

/-! ## spatial_pooling2d forward `Result::allocate`: what it sets -/

/-- C13, the counterexample: the sample result holds a value tensor of dimension 1, while
`getValueSize` of the sample input gives 2 x 2; after `allocate` the value is still the
old tensor, so it was not replaced by a tensor of the new dimensions. -/
theorem spatial_pooling2d_forward_allocate_keeps_stale_value :
    spatial_pooling2d.forward.sampleGetValueSize [4, 4] spatial_pooling2d.forward.sampleParameter 0
      = [2, 2]
    ∧ (spatial_pooling2d.forward.Result.allocate .float spatial_pooling2d.forward.sampleGetValueSize
        spatial_pooling2d.forward.sampleResultStale spatial_pooling2d.forward.sampleInput
        spatial_pooling2d.forward.sampleParameter 0 [] 10).result.value
      = some { addr := 3, kind := .homogen .float, dims := [1] }
    ∧ ((spatial_pooling2d.forward.Result.allocate .float
        spatial_pooling2d.forward.sampleGetValueSize spatial_pooling2d.forward.sampleResultStale
        spatial_pooling2d.forward.sampleInput spatial_pooling2d.forward.sampleParameter 0 []
        10).result.value.map (fun t => t.dims))
      ≠ some (spatial_pooling2d.forward.sampleGetValueSize [4, 4]
          spatial_pooling2d.forward.sampleParameter 0) := by
  refine ⟨?_, ?_, ?_⟩ <;> decide

/-- C13, as amended: for every result whose value tensor is already set, every input whose
data tensor is present, every parameter, method and `getValueSize`, `Result::allocate` of
the forward 2D spatial pooling layer returns normally and keeps that value tensor, the
same reference with its dimensions, whether or not these equal what `getValueSize`
gives. -/
theorem spatial_pooling2d_forward_allocate_keeps_set_value
    (fp : FPType) (getValueSize : spatial_pooling2d.forward.GetValueSizeFn)
    (self : spatial_pooling2d.forward.Result) (v data : Tensor) (parameter : Parameter)
    (method : Int) (errors : ErrorCollection) (nextAddr : Nat) :
    (spatial_pooling2d.forward.Result.allocate fp getValueSize { self with value := some v }
        { data := some data } parameter method errors nextAddr).result.value = some v
    ∧ (spatial_pooling2d.forward.Result.allocate fp getValueSize { self with value := some v }
        { data := some data } parameter method errors nextAddr).status = .returned := by
  cases hr : self.resultForBackward <;> cases hp : parameter.predictionStage <;>
    simp [spatial_pooling2d.forward.Result.allocate, hr, hp]

/-- C14: `Result::allocate` of the forward 2D spatial pooling layer and `resultForBackward`,
for every input whose data tensor is present: (1) with `predictionStage` true the field is
left exactly as it was; (2) with `predictionStage` false and the field unset it becomes a
new empty `LayerData`, allocated by this call; (3) with `predictionStage` false and the
field set it is kept. -/
theorem spatial_pooling2d_forward_allocate_result_for_backward
    (fp : FPType) (getValueSize : spatial_pooling2d.forward.GetValueSizeFn)
    (self : spatial_pooling2d.forward.Result) (data : Tensor) (ld : LayerData)
    (parameter : Parameter) (method : Int) (errors : ErrorCollection) (nextAddr : Nat) :
    (spatial_pooling2d.forward.Result.allocate fp getValueSize self { data := some data }
        { parameter with predictionStage := true } method errors nextAddr).result.resultForBackward
      = self.resultForBackward
    ∧ (∃ addr, nextAddr ≤ addr
        ∧ (spatial_pooling2d.forward.Result.allocate fp getValueSize
            { self with resultForBackward := none } { data := some data }
            { parameter with predictionStage := false } method errors
            nextAddr).result.resultForBackward = some { addr := addr, entries := [] }
        ∧ (spatial_pooling2d.forward.Result.allocate fp getValueSize
            { self with resultForBackward := none } { data := some data }
            { parameter with predictionStage := false } method errors nextAddr).nextAddr
          = addr + 1)
    ∧ (spatial_pooling2d.forward.Result.allocate fp getValueSize
        { self with resultForBackward := some ld } { data := some data }
        { parameter with predictionStage := false } method errors
        nextAddr).result.resultForBackward = some ld := by
  refine ⟨?_, ?_, ?_⟩
  · cases hv : self.value <;> simp [spatial_pooling2d.forward.Result.allocate, hv]
  · cases hv : self.value
    · exact ⟨nextAddr + 1, Nat.le_succ _, by simp [spatial_pooling2d.forward.Result.allocate, hv],
        by simp [spatial_pooling2d.forward.Result.allocate, hv]⟩
    · exact ⟨nextAddr, Nat.le_refl _, by simp [spatial_pooling2d.forward.Result.allocate, hv],
        by simp [spatial_pooling2d.forward.Result.allocate, hv]⟩
  · cases hv : self.value <;> simp [spatial_pooling2d.forward.Result.allocate, hv]

/-- C15: for a freshly constructed (empty) result, every input whose data tensor is present
and every parameter, `Result::allocate` of the forward 2D spatial pooling layer sets the
value to a tensor allocated by this call at the next free address whose dimensions are
`getValueSize(dimensions of the input data, parameter, method)`, adds nothing to the error
collection and returns normally. -/
theorem spatial_pooling2d_forward_allocate_sizes_value
    (fp : FPType) (getValueSize : spatial_pooling2d.forward.GetValueSizeFn)
    (data : Tensor) (parameter : Parameter) (method : Int) (errors : ErrorCollection)
    (nextAddr : Nat) :
    (spatial_pooling2d.forward.Result.allocate fp getValueSize
        { value := none, resultForBackward := none } { data := some data } parameter method
        errors nextAddr).result.value
      = some { addr := nextAddr, kind := .homogen fp
               dims := getValueSize data.dims parameter method }
    ∧ (spatial_pooling2d.forward.Result.allocate fp getValueSize
        { value := none, resultForBackward := none } { data := some data } parameter method
        errors nextAddr).errors = errors
    ∧ (spatial_pooling2d.forward.Result.allocate fp getValueSize
        { value := none, resultForBackward := none } { data := some data } parameter method
        errors nextAddr).status = .returned
    ∧ nextAddr < (spatial_pooling2d.forward.Result.allocate fp getValueSize
        { value := none, resultForBackward := none } { data := some data } parameter method
        errors nextAddr).nextAddr := by
  cases hp : parameter.predictionStage
  · simp [spatial_pooling2d.forward.Result.allocate, hp]
    omega
  · simp [spatial_pooling2d.forward.Result.allocate, hp]

end daal.algorithms.neural_networks.layers

/-! ## The result of a KD-tree kNN training `Batch` -/

namespace daal.algorithms.kdtree_knn_classification.training

open services

/-- C16: for every `Batch` state, `setResult` with a null pointer adds `ErrorNullResult` at
the end of the error collection and returns; what `getResult` returns and the pointer
`_res` are unchanged, and so is every other field of the object. -/
theorem kdtree_batch_set_result_rejects_null (self : Batch) :
    (self.setResult none)._errors = self._errors ++ [{ id := .ErrorNullResult }]
    ∧ (self.setResult none).getResult = self.getResult
    ∧ (self.setResult none)._res = self._res
    ∧ self.setResult none = { self with _errors := self._errors ++ [{ id := .ErrorNullResult }] } :=
  ⟨rfl, rfl, rfl, rfl⟩

/-- C17: for every `Batch` state and every non-null `Result` reference `r`, after
`setResult(r)` the method `getResult()` returns `r`, the pointer `_res` refers to `r`, and
nothing was added to the error collection. -/
theorem kdtree_batch_set_result_registers (self : Batch) (r : Nat) :
    (self.setResult (some r)).getResult = some r
    ∧ (self.setResult (some r))._res = some r
    ∧ (self.setResult (some r))._errors = self._errors :=
  ⟨rfl, rfl, rfl⟩

/-- C18: for every `Batch` state whose result pointer, when set, points at an existing
`Result`: after `resetResult()` the method `getResult()` returns a `Result` object that
did not exist before, is empty, and is not the object held before the call; `_res` is
null; every `Result` object that existed before, in particular the one held before, is
unchanged; the error collection is unchanged. -/
theorem kdtree_batch_reset_result (self : Batch) (results : List Result)
    (hres : ∀ r, self._result = some r → r < results.length) :
    ∃ rn, (self.resetResult results).1.getResult = some rn
      ∧ results[rn]? = none
      ∧ (self.resetResult results).2[rn]? = some Result.empty
      ∧ (self.resetResult results).1.getResult ≠ self.getResult
      ∧ (self.resetResult results).1._res = none
      ∧ (∀ r, r < results.length → (self.resetResult results).2[r]? = results[r]?)
      ∧ (∀ r, self.getResult = some r → (self.resetResult results).2[r]? = results[r]?)
      ∧ (self.resetResult results).1._errors = self._errors := by
  refine ⟨results.length, rfl, by simp, by simp [Batch.resetResult], ?_, rfl, ?_, ?_, rfl⟩
  · intro h
    exact Nat.lt_irrefl _ (hres _ h.symm)
  · intro r hr
    simp [Batch.resetResult, List.getElem?_append_left hr]
  · intro r hr
    simp [Batch.resetResult, List.getElem?_append_left (hres r hr)]

/-- The witness of C18: the sample `Batch`, whose result was registered with `setResult`. -/
theorem kdtree_batch_reset_result_witness :
    (∀ r, sampleBatch._result = some r → r < sampleWorld.results.length)
    ∧ ∃ rn, (sampleBatch.resetResult sampleWorld.results).1.getResult = some rn
      ∧ sampleWorld.results[rn]? = none
      ∧ (sampleBatch.resetResult sampleWorld.results).2[rn]? = some Result.empty
      ∧ (sampleBatch.resetResult sampleWorld.results).1.getResult ≠ sampleBatch.getResult
      ∧ (sampleBatch.resetResult sampleWorld.results).1._res = none
      ∧ (∀ r, r < sampleWorld.results.length →
          (sampleBatch.resetResult sampleWorld.results).2[r]? = sampleWorld.results[r]?)
      ∧ (∀ r, sampleBatch.getResult = some r →
          (sampleBatch.resetResult sampleWorld.results).2[r]? = sampleWorld.results[r]?)
      ∧ (sampleBatch.resetResult sampleWorld.results).1._errors = sampleBatch._errors :=
  ⟨fun r h => by cases h; decide,
    kdtree_batch_reset_result sampleBatch sampleWorld.results (fun r h => by cases h; decide)⟩

end daal.algorithms.kdtree_knn_classification.training

/-! ## The result-pointer invariant of a KD-tree kNN training `Batch` -/

namespace daal.algorithms.kdtree_knn_classification.training

open services

/-- The default constructor establishes the invariant. -/
theorem State.inv_construct (this : Nat) (results : List Result) (containers : Nat) :
    State.Inv { self := (Batch.construct this results containers).self
                results := (Batch.construct this results containers).results } :=
  ⟨results.length, rfl, by simp [Batch.construct, Batch.initializeBatch], Or.inl rfl⟩

/-- The copy constructor establishes the invariant. -/
theorem State.inv_copyConstruct (other : Batch) (this : Nat) (results : List Result)
    (containers : Nat) :
    State.Inv { self := (Batch.copyConstruct other this results containers).self
                results := (Batch.copyConstruct other this results containers).results } :=
  ⟨results.length, rfl, by simp [Batch.copyConstruct, Batch.initializeBatch], Or.inl rfl⟩

/-- Every operation whose argument is valid returns and keeps the invariant; the number of
`Result` objects grows by one in `resetResult()` and is unchanged otherwise. -/
theorem State.inv_step (allocate : ResultAllocateFn) (method : Int) (s : State) (op : Op)
    (hinv : s.Inv) (hop : ∀ r, op = .setResult (some r) → r < s.results.length) :
    ∃ s1, s.step allocate method op = some s1 ∧ s1.Inv
      ∧ s1.results.length
        = (if op = .resetResult then s.results.length + 1 else s.results.length) := by
  obtain ⟨r, hr, hlt, hres⟩ := hinv
  cases op with
  | setResult result =>
    cases result with
    | none => exact ⟨_, rfl, ⟨r, hr, hlt, hres⟩, by simp⟩
    | some r1 => exact ⟨_, rfl, ⟨r1, rfl, hop r1 rfl, Or.inr rfl⟩, by simp⟩
  | resetResult =>
    refine ⟨_, rfl, ⟨s.results.length, rfl, by simp [Batch.resetResult], Or.inl rfl⟩, ?_⟩
    simp [Batch.resetResult]
  | allocateResult =>
    have hget : s.results[r]? = some (s.results[r]) := List.getElem?_eq_getElem hlt
    refine ⟨{ self := { s.self with _res := s.self._result },
              results := s.results.set r
                (allocate (s.results[r]) s.self.input s.self.parameter method) }, ?_, ?_, ?_⟩
    · simp [State.step, Batch.allocateResult, hr, hget]
    · exact ⟨r, hr, by simpa using hlt, Or.inr hr⟩
    · simp

/-- Every valid sequence of operations returns and keeps the invariant. -/
theorem State.inv_run (allocate : ResultAllocateFn) (method : Int) (ops : List Op) :
    ∀ s : State, s.Inv → opsValid s.results.length ops = true →
      ∃ s1, s.run allocate method ops = some s1 ∧ s1.Inv := by
  induction ops with
  | nil => exact fun s hinv _ => ⟨s, rfl, hinv⟩
  | cons op ops ih =>
    intro s hinv hv
    have hop : ∀ r, op = .setResult (some r) → r < s.results.length := by
      intro r hr
      subst hr
      simp only [opsValid, Bool.and_eq_true, decide_eq_true_eq] at hv
      exact hv.1
    obtain ⟨s1, hs1, hinv1, hlen⟩ := State.inv_step allocate method s op hinv hop
    have hv1 : opsValid s1.results.length ops = true := by
      rw [hlen]
      cases op with
      | setResult result =>
        cases result with
        | none => simpa [opsValid] using hv
        | some r =>
          simp only [opsValid, Bool.and_eq_true, decide_eq_true_eq] at hv
          simpa using hv.2
      | resetResult => simpa [opsValid] using hv
      | allocateResult => simpa [opsValid] using hv
    obtain ⟨s2, hs2, hinv2⟩ := ih s1 hinv1 hv1
    exact ⟨s2, by simp [State.run, hs1, hs2], hinv2⟩

/-- C21: the result-pointer invariant of the KD-tree kNN training `Batch`. From the state
left by the default constructor, and from the state left by the copy constructor, every
sequence of `setResult` (with a null argument, or with a pointer to an existing `Result`),
`resetResult` and `allocateResult` runs to its end, and in the state it reaches
`getResult()` is not null and points at an existing `Result`, and `_res` is null or is the
pointer `getResult()` returns. -/
theorem kdtree_batch_result_pointer_invariant
    (allocate : ResultAllocateFn) (method : Int) (other : Batch) (this : Nat)
    (results : List Result) (containers : Nat) (ops : List Op)
    (hv : opsValid (results.length + 1) ops = true) :
    (∃ s, State.run allocate method
          { self := (Batch.construct this results containers).self
            results := (Batch.construct this results containers).results } ops = some s
        ∧ s.self.getResult ≠ none
        ∧ (s.self._res = none ∨ s.self._res = s.self.getResult)
        ∧ ∃ r, s.self.getResult = some r ∧ r < s.results.length)
    ∧ (∃ s, State.run allocate method
          { self := (Batch.copyConstruct other this results containers).self
            results := (Batch.copyConstruct other this results containers).results } ops = some s
        ∧ s.self.getResult ≠ none
        ∧ (s.self._res = none ∨ s.self._res = s.self.getResult)
        ∧ ∃ r, s.self.getResult = some r ∧ r < s.results.length) := by
  have hlen1 : (Batch.construct this results containers).results.length = results.length + 1 := by
    simp [Batch.construct, Batch.initializeBatch]
  have hlen2 : (Batch.copyConstruct other this results containers).results.length
      = results.length + 1 := by
    simp [Batch.copyConstruct, Batch.initializeBatch]
  constructor
  · obtain ⟨s, hs, r, hr, hlt, hres⟩ :=
      State.inv_run allocate method ops _ (State.inv_construct this results containers)
        (by rw [hlen1]; exact hv)
    refine ⟨s, hs, ?_, ?_, r, hr, hlt⟩
    · simp [Batch.getResult, hr]
    · simpa [Batch.getResult, hr] using hres
  · obtain ⟨s, hs, r, hr, hlt, hres⟩ :=
      State.inv_run allocate method ops _ (State.inv_copyConstruct other this results containers)
        (by rw [hlen2]; exact hv)
    refine ⟨s, hs, ?_, ?_, r, hr, hlt⟩
    · simp [Batch.getResult, hr]
    · simpa [Batch.getResult, hr] using hres

/-- The witness of C21: the sample sequence of operations, started in a store that holds
one `Result`, from the default constructor and from a copy of the sample `Batch`. -/
theorem kdtree_batch_result_pointer_invariant_witness :
    opsValid (([{ model := some 7 }] : List Result).length + 1) sampleOps = true
    ∧ (∃ s, State.run sampleAllocate 0
          { self := (Batch.construct 0 [{ model := some 7 }] 0).self
            results := (Batch.construct 0 [{ model := some 7 }] 0).results } sampleOps = some s
        ∧ s.self.getResult ≠ none
        ∧ (s.self._res = none ∨ s.self._res = s.self.getResult)
        ∧ ∃ r, s.self.getResult = some r ∧ r < s.results.length)
    ∧ (∃ s, State.run sampleAllocate 0
          { self := (Batch.copyConstruct sampleBatch 0 [{ model := some 7 }] 0).self
            results := (Batch.copyConstruct sampleBatch 0 [{ model := some 7 }] 0).results }
          sampleOps = some s
        ∧ s.self.getResult ≠ none
        ∧ (s.self._res = none ∨ s.self._res = s.self.getResult)
        ∧ ∃ r, s.self.getResult = some r ∧ r < s.results.length) :=
  ⟨by decide,
    kdtree_batch_result_pointer_invariant sampleAllocate 0 sampleBatch 0 [{ model := some 7 }] 0
      sampleOps (by decide)⟩

end daal.algorithms.kdtree_knn_classification.training

/-! ## lrn backward `Input::check` with errors already in the collection -/

namespace daal.algorithms.neural_networks.layers

open services data_management

/-- C22: errors already in the collection mask the validation of the backward lrn layer.
With `propagateGradient` true and an error collection that is not empty on entry, for
every input, base-class check and `checkTensor`: `Input::check` executes the base-class
check and nothing else (none of the three `checkTensor` calls, no read of dimensions),
the step counts as failed because the collection is not empty, the collection afterwards
is the collection before followed by what the base-class check added, and the call
returns; this holds also when the base-class check adds nothing. -/
theorem lrn_backward_input_check_masked_by_earlier_errors
    (baseCheck : lrn.backward.BaseCheckFn) (ct : CheckTensorFn) (input : lrn.backward.Input)
    (par : Parameter) (method : Int) (errors : ErrorCollection)
    (h : par.propagateGradient = true) (hne : errors ≠ []) :
    lrn.backward.Input.check baseCheck ct input par method errors
      = { errors := errors ++ baseCheck input par method errors
          trace := [{ step := .baseCheck, failed := true
                      appended := baseCheck input par method errors }]
          status := .returned } := by
  have hsize :
      (ErrorCollection.size (errors ++ baseCheck input par method errors) != 0) = true := by
    cases errors with
    | nil => exact absurd rfl hne
    | cons e es => simp [ErrorCollection.size]
  simp only [lrn.backward.Input.check, h, Bool.not_true, Bool.false_eq_true, if_false, hsize,
    if_true]

/-- The witness of C22: the base-class check passes, every tensor and the forward
`LayerData` are absent, and the collection holds one entry on entry: it holds the same one
entry afterwards. -/
theorem lrn_backward_input_check_masked_by_earlier_errors_witness :
    lrn.backward.sampleParameter.propagateGradient = true
    ∧ ([{ id := .other 3 }] : ErrorCollection) ≠ []
    ∧ lrn.backward.Input.check lrn.backward.sampleBaseCheck checkTensor
        { inputGradient := none, inputFromForward := none } lrn.backward.sampleParameter 0
        [{ id := .other 3 }]
      = { errors := [{ id := .other 3 }] ++ lrn.backward.sampleBaseCheck
            { inputGradient := none, inputFromForward := none } lrn.backward.sampleParameter 0
            [{ id := .other 3 }]
          trace := [{ step := .baseCheck, failed := true
                      appended := lrn.backward.sampleBaseCheck
                        { inputGradient := none, inputFromForward := none }
                        lrn.backward.sampleParameter 0 [{ id := .other 3 }] }]
          status := .returned } :=
  ⟨rfl, by decide,
    lrn_backward_input_check_masked_by_earlier_errors lrn.backward.sampleBaseCheck checkTensor
      { inputGradient := none, inputFromForward := none } lrn.backward.sampleParameter 0
      [{ id := .other 3 }] rfl (by decide)⟩

end daal.algorithms.neural_networks.layers
